import Mathlib

/-!
Verification development for the PageLens website-analysis backend.

The embedding covers:
* a small regular-expression engine (Brzozowski derivatives) used to model
  the JavaScript `RegExp.test` / `String.match` calls of the source;
* the `PageSnapshot` evidence model (`models/PageSnapshot.js`);
* the fixed pattern catalog (`patterns.js`) and the classification engine
  (`classifier.js`: `checkSignal`, `classifyPage`, `classifyAllPages`);
* the claim extractor (`extractor/claims.js`: `extractClaims`,
  `extractDescription`, `CLAIM_TO_PATTERN_MAP`);
* the crawl traversal (`crawler.js`: `crawlWebsite`), with the external
  Playwright renderer abstracted as a fetch oracle;
* the comparison engine (`compareClaimsVsDetections`).
-/

/-! ## Regular-expression engine

JavaScript regexes of the source are modelled as values of `Rx` and
evaluated with Brzozowski derivatives.  `Rx` has no anchors; a JS regex is
translated together with its anchoring mode (see `Pat` below): an
unanchored `test` is a full match of `Σ* r Σ*`, a `^`-anchored one of
`r Σ*`, and so on.  Character classes are Lean predicates on `Char`
(ASCII-faithful to the JS semantics for the inputs at hand).
-/

inductive Rx where
  | emp : Rx
  | eps : Rx
  | cls (p : Char → Bool) : Rx
  | cat (r s : Rx) : Rx
  | alt (r s : Rx) : Rx
  | star (r : Rx) : Rx

/-- Smart concatenation: absorbs the empty language and drops `eps`. -/
def scat (r s : Rx) : Rx :=
  match r, s with
  | .emp, _ => .emp
  | _, .emp => .emp
  | .eps, s' => s'
  | r', .eps => r'
  | r', s' => .cat r' s'

/-- Smart alternation: drops the empty language. -/
def salt (r s : Rx) : Rx :=
  match r, s with
  | .emp, s' => s'
  | r', .emp => r'
  | r', s' => .alt r' s'

/-- Does the regex accept the empty word? -/
def rxNull : Rx → Bool
  | .emp => false
  | .eps => true
  | .cls _ => false
  | .cat r s => rxNull r && rxNull s
  | .alt r s => rxNull r || rxNull s
  | .star _ => true

/-- Brzozowski derivative with respect to one character. -/
def rxDeriv (r : Rx) (c : Char) : Rx :=
  match r with
  | .emp => .emp
  | .eps => .emp
  | .cls p => if p c then .eps else .emp
  | .cat r₁ r₂ =>
      if rxNull r₁ then salt (scat (rxDeriv r₁ c) r₂) (rxDeriv r₂ c)
      else scat (rxDeriv r₁ c) r₂
  | .alt r₁ r₂ => salt (rxDeriv r₁ c) (rxDeriv r₂ c)
  | .star r₁ => scat (rxDeriv r₁ c) (.star r₁)

/-- Full match of a regex against a character list. -/
def matchFrom (r : Rx) : List Char → Bool
  | [] => rxNull r
  | c :: cs => matchFrom (rxDeriv r c) cs

/-- Length of the longest prefix of the input accepted by the regex
(scanning with derivatives, remembering the last rxNull point). -/
def longestLenAux (r : Rx) (s : List Char) (i : Nat) (best : Option Nat) : Option Nat :=
  let best' := if rxNull r then some i else best
  match s with
  | [] => best'
  | c :: cs => longestLenAux (rxDeriv r c) cs (i + 1) best'

def longestLen (r : Rx) (s : List Char) : Option Nat :=
  longestLenAux r s 0 none

/-- Leftmost match of an (unanchored) regex in the input: the first
start position that admits a match, taking the longest match there.
This models the substring returned by the JS `String.match(re)[0]` (JS
resolves alternation by pattern order rather than by length; for the
catalog regexes, as used on the inputs of this development, the two
agree). -/
def match0 (r : Rx) : List Char → Option (List Char)
  | [] => if rxNull r then some [] else none
  | c :: cs =>
      match longestLen r (c :: cs) with
      | some n => some ((c :: cs).take n)
      | none => match0 r cs

/-! ### Character classes and combinators -/

def anyC : Rx := .cls (fun _ => true)

/-- The JS `.` metacharacter (any character except line terminators). -/
def dotC : Rx := .cls (fun c => !(c == '\n' || c == '\r'))

def digitC : Rx := .cls Char.isDigit

/-- The JS `\w` class `[A-Za-z0-9_]`. -/
def isWordChar (c : Char) : Bool := c.isAlphanum || c == '_'

def wordC : Rx := .cls isWordChar

def nonWordC : Rx := .cls (fun c => !isWordChar c)

/-- The JS `\s` class (modelled by `Char.isWhitespace`). -/
def wsC : Rx := .cls Char.isWhitespace

def rch (c : Char) : Rx := .cls (fun d => d == c)

/-- Case-insensitive single character (the JS `i` flag). -/
def rchi (c : Char) : Rx := .cls (fun d => d.toLower == c.toLower)

def ropt (r : Rx) : Rx := .alt r .eps

def rplus (r : Rx) : Rx := .cat r (.star r)

def wsS : Rx := .star wsC

def wsP : Rx := rplus wsC

def dotS : Rx := .star dotC

def anyS : Rx := .star anyC

/-- Case-insensitive literal string. -/
def istr (s : String) : Rx := s.data.foldr (fun c r => .cat (rchi c) r) .eps

/-- Case-sensitive literal string. -/
def cstr (s : String) : Rx := s.data.foldr (fun c r => .cat (rch c) r) .eps

/-- n-ary alternation (left-to-right, like the JS `|`). -/
def orx : List Rx → Rx
  | [] => .emp
  | [r] => r
  | r :: rs => .alt r (orx rs)

/-- n-ary concatenation. -/
def catx : List Rx → Rx
  | [] => .eps
  | [r] => r
  | r :: rs => .cat r (catx rs)

/-! ### Translated JS regexes

A `Pat` packages the full-match form used for `RegExp.test` (anchoring
context made explicit) together with the regex core used for leftmost
match extraction (`String.match`). -/

structure Pat where
  full : Rx
  core : Rx

/-- Unanchored JS regex `/r/`. -/
def pU (r : Rx) : Pat := ⟨.cat anyS (.cat r anyS), r⟩

/-- Fully anchored JS regex `/^r$/`. -/
def pA (r : Rx) : Pat := ⟨r, r⟩

/-- Start-anchored JS regex `/^r/`. -/
def pS (r : Rx) : Pat := ⟨.cat r anyS, r⟩

/-- End-anchored JS regex `/r$/`. -/
def pE (r : Rx) : Pat := ⟨.cat anyS r, r⟩

/-- Word-boundary-delimited literal, the JS `/\blit\b/` for a literal
that starts and ends with word characters: some occurrence of the
literal is preceded and followed by a non-word character or a string
edge. -/
def pWB (lit : String) : Pat :=
  ⟨.cat (.alt .eps (.cat anyS nonWordC))
     (.cat (istr lit) (.alt (.cat nonWordC anyS) .eps)),
   istr lit⟩

/-- The JS `re.test(s)`. -/
def Pat.test (p : Pat) (s : String) : Bool := matchFrom p.full s.data

/-- The JS `s.match(re)[0]` for an unanchored regex (defaults to `""`
when there is no match, which the source never relies on). -/
def Pat.first (p : Pat) (s : String) : String :=
  match match0 p.core s.data with
  | some cs => ⟨cs⟩
  | none => ""

example : Pat.test (pU (istr "search")) "Search our products" = true := by decide
example : Pat.test (pA (catx [istr "log", wsS, istr "in"])) "Log  in" = true := by decide
example : Pat.test (pA (catx [istr "log", wsS, istr "in"])) "xLog in" = false := by decide
example : Pat.test (pWB "api") "the API docs" = true := by decide
example : Pat.test (pWB "api") "rapid" = false := by decide
example : Pat.first (pU (istr "search")) "our Search box" = "Search" := by decide

/-! ### Kernel-friendly string helpers

The built-in `String.toLower`, `trim`, `take`, `splitOn` work on byte
positions and do not reduce well definitionally; these character-list
versions (used by the embedding) have the same meaning on the inputs at
hand. -/

/-- `String.toLowerCase()` (ASCII). -/
def lowerStr (s : String) : String := ⟨s.data.map Char.toLower⟩

/-- Take the first `n` characters. -/
def takeStr (n : Nat) (s : String) : String := ⟨s.data.take n⟩

/-- `String.trim()`: strip leading/trailing whitespace. -/
def trimStr (s : String) : String :=
  ⟨((s.data.dropWhile Char.isWhitespace).reverse.dropWhile Char.isWhitespace).reverse⟩

/-- Split a character list on a separator character. -/
def splitCharAux (sep : Char) : List Char → List (List Char)
  | [] => [[]]
  | d :: ds =>
      if d == sep then [] :: splitCharAux sep ds
      else
        match splitCharAux sep ds with
        | [] => [[d]]
        | g :: gs => (d :: g) :: gs

/-- `String.split(sep)` for a one-character separator. -/
def splitStr (sep : Char) (s : String) : List String :=
  (splitCharAux sep s.data).map (fun cs => ⟨cs⟩)

/-! ## Page snapshot model (`models/PageSnapshot.js`) -/

structure InputEl where
  type : String
  name : String
  placeholder : String
deriving DecidableEq

structure ButtonEl where
  text : String
  type : String
deriving DecidableEq

structure LinkEl where
  href : String
  text : String
deriving DecidableEq

structure PageSnapshot where
  url : String
  title : String
  visibleText : String
  inputs : List InputEl
  buttons : List ButtonEl
  links : List LinkEl
deriving DecidableEq

structure RawInput where
  type : Option String
  name : Option String
  placeholder : Option String

structure RawButton where
  text : Option String
  type : Option String

structure RawLink where
  href : Option String
  text : Option String

/-- Raw page data with possibly missing fields, as handed to
`createPageSnapshot` (`data.url || ''` defaulting). -/
structure RawPageData where
  url : Option String
  title : Option String
  visibleText : Option String
  inputs : Option (List RawInput)
  buttons : Option (List RawButton)
  links : Option (List RawLink)

/-- `createPageSnapshot` of `models/PageSnapshot.js`: every field is
defaulted to an empty string / empty list. -/
def createPageSnapshot (data : RawPageData) : PageSnapshot :=
  { url := data.url.getD ""
    title := data.title.getD ""
    visibleText := data.visibleText.getD ""
    inputs := (data.inputs.getD []).map (fun input =>
      { type := input.type.getD "text"
        name := input.name.getD ""
        placeholder := input.placeholder.getD "" })
    buttons := (data.buttons.getD []).map (fun button =>
      { text := button.text.getD ""
        type := button.type.getD "button" })
    links := (data.links.getD []).map (fun link =>
      { href := link.href.getD ""
        text := link.text.getD "" }) }

/-! ## Pattern catalog (`patterns.js`)

Each signal is `{type, value|pattern, weight}`; the eight signal kinds of
`checkSignal` become the constructors of `Signal`. -/

inductive Signal where
  | inputType (value : String) (weight : Nat)
  | inputName (pat : Pat) (weight : Nat)
  | inputPlaceholder (pat : Pat) (weight : Nat)
  | buttonText (pat : Pat) (weight : Nat)
  | linkText (pat : Pat) (weight : Nat)
  | linkHref (pat : Pat) (weight : Nat)
  | visibleText (pat : Pat) (weight : Nat)
  | url (pat : Pat) (weight : Nat)

def Signal.weight : Signal → Nat
  | .inputType _ w => w
  | .inputName _ w => w
  | .inputPlaceholder _ w => w
  | .buttonText _ w => w
  | .linkText _ w => w
  | .linkHref _ w => w
  | .visibleText _ w => w
  | .url _ w => w

structure Pattern where
  id : String
  name : String
  descr : String
  signals : List Signal

/-- Apostrophe character (U+0027), used in the translated regexes. -/
def apos : Char := Char.ofNat 39

/-- `PATTERNS.AUTH_PAGE` of `patterns.js`. -/
def authPagePattern : Pattern :=
  { id := "AUTH_PAGE"
    name := "Authentication Page"
    descr := "Login, signup, or password reset pages"
    signals := [
      .inputType "password" 30,
      .inputType "email" 15,
      .inputName (pA (orx [istr "email", istr "username", istr "user", istr "login"])) 15,
      .inputName (pA (orx [istr "password", istr "pass", istr "pwd"])) 20,
      .buttonText (pA (orx [catx [istr "log", wsS, istr "in"],
        catx [istr "sign", wsS, istr "in"], istr "login", istr "signin"])) 25,
      .buttonText (pA (orx [catx [istr "sign", wsS, istr "up"], istr "register",
        catx [istr "create", wsS, istr "account"]])) 25,
      .buttonText (pA (orx [catx [istr "forgot", wsS, istr "password"],
        catx [istr "reset", wsS, istr "password"]])) 20,
      .linkText (pU (catx [istr "forgot", dotS, istr "password"])) 15,
      .linkText (pU (orx [catx [istr "create", dotS, istr "account"],
        catx [istr "sign", dotS, istr "up"], istr "register"])) 15,
      .visibleText (pU (catx [istr "sign", wsS, istr "in", wsS, istr "to", wsS,
        istr "your", wsS, istr "account"])) 20,
      .visibleText (pU (catx [istr "don", ropt (rch apos), istr "t", wsS, istr "have",
        wsS, istr "a", ropt (rchi 'n'), wsS, istr "account"])) 15,
      .visibleText (pU (catx [istr "already", wsS, istr "have", wsS, istr "a",
        ropt (rchi 'n'), wsS, istr "account"])) 15,
      .url (pU (.cat (rch '/') (orx [istr "login", istr "signin", istr "auth",
        istr "signup", istr "register"]))) 25
    ] }

/-- `PATTERNS.SEARCH_PAGE` of `patterns.js`. -/
def searchPagePattern : Pattern :=
  { id := "SEARCH_PAGE"
    name := "Search / Filter Page"
    descr := "Pages with search or filtering functionality"
    signals := [
      .inputType "search" 35,
      .inputName (pA (orx [istr "search", istr "query", istr "q", istr "keyword",
        istr "find"])) 25,
      .inputPlaceholder (pU (istr "search")) 20,
      .buttonText (pA (istr "search")) 25,
      .buttonText (pA (orx [istr "filter",
        catx [istr "apply", wsS, istr "filter", ropt (rchi 's')]])) 20,
      .buttonText (pA (orx [istr "find", catx [istr "look", wsS, istr "up"]])) 15,
      .visibleText (pU (catx [istr "search", wsS, istr "result", ropt (rchi 's')])) 20,
      .visibleText (pU (catx [istr "no", wsS, istr "result", ropt (rchi 's'), wsS,
        istr "found"])) 15,
      .visibleText (pU (catx [istr "filter", wsS, istr "by"])) 20,
      .visibleText (pU (catx [istr "sort", wsS, istr "by"])) 15,
      .url (pU (.cat (rch '/') (orx [istr "search", istr "find", istr "results",
        istr "browse"]))) 20,
      .url (pU (catx [.cls (fun c => c == '?' || c == '&'),
        orx [istr "q", istr "query", istr "search"], rch '='])) 25
    ] }

/-- `PATTERNS.LANDING_PAGE` of `patterns.js`. -/
def landingPagePattern : Pattern :=
  { id := "LANDING_PAGE"
    name := "Landing / Marketing Page"
    descr := "Homepage or marketing landing pages"
    signals := [
      .buttonText (pA (orx [catx [istr "get", wsS, istr "started"],
        catx [istr "try", wsS, ropt (catx [istr "it", wsS]), istr "free"],
        catx [istr "start", wsS, orx [istr "now", istr "free", istr "trial"]]])) 30,
      .buttonText (pA (orx [catx [istr "learn", wsS, istr "more"],
        catx [istr "see", wsS, istr "how"], istr "discover"])) 20,
      .buttonText (pA (orx [catx [istr "book", wsS, ropt (rchi 'a'), wsS, istr "demo"],
        catx [istr "request", wsS, istr "demo"],
        catx [istr "schedule", wsS, istr "demo"]])) 25,
      .buttonText (pA (orx [catx [istr "contact", wsS, istr "sales"],
        catx [istr "talk", wsS, istr "to", wsS, istr "sales"]])) 20,
      .visibleText (pU (orx [catx [istr "trusted", wsS, istr "by"],
        catx [istr "used", wsS, istr "by", dotS, istr "companies"]])) 20,
      .visibleText (pU (catx [rplus digitC,
        ropt (.cls (fun c => c == '+' || c.toLower == 'k')), wsS,
        orx [catx [istr "user", ropt (rchi 's')],
          catx [istr "customer", ropt (rchi 's')], istr "companies"]])) 15,
      .visibleText (pU (orx [catx [istr "free", wsS, istr "trial"],
        catx [istr "no", wsS, istr "credit", wsS, istr "card"]])) 20,
      .visibleText (pU (orx [catx [istr "feature", ropt (rchi 's')],
        catx [istr "benefit", ropt (rchi 's')],
        catx [istr "why", wsS, istr "choose"]])) 15,
      .visibleText (pU (orx [istr "pricing", catx [istr "plan", ropt (rchi 's')]])) 10,
      .visibleText (pU (orx [catx [istr "testimonial", ropt (rchi 's')],
        catx [istr "what", wsS, ropt (catx [istr "our", wsS]),
          orx [catx [istr "customer", ropt (rchi 's')],
            catx [istr "client", ropt (rchi 's')]], wsS, istr "say"]])) 20,
      .linkText (pA (orx [istr "pricing", catx [istr "feature", ropt (rchi 's')],
        istr "about", istr "blog", istr "contact"])) 15,
      .url (pA (catx [istr "http", ropt (rchi 's'), istr "://",
        rplus (.cls (fun c => !(c == '/'))), ropt (rch '/')])) 25,
      .url (pE (.cat (rch '/') (orx [istr "home", istr "landing", istr "welcome"]))) 20
    ] }

/-- `PATTERNS.CONTENT_LISTING` of `patterns.js`. -/
def contentListingPattern : Pattern :=
  { id := "CONTENT_LISTING"
    name := "Content / Listing Page"
    descr := "Pages displaying lists of items, articles, or products"
    signals := [
      .visibleText (pU (catx [istr "showing", wsS, rplus digitC, dotS,
        istr "result", ropt (rchi 's')])) 25,
      .visibleText (pU (catx [istr "page", wsS, rplus digitC, wsS,
        ropt (catx [istr "of", wsS, rplus digitC])])) 20,
      .visibleText (pU (orx [catx [istr "next", wsS, istr "page"],
        catx [istr "previous", wsS, istr "page"]])) 15,
      .visibleText (pU (orx [catx [istr "load", wsS, istr "more"],
        catx [istr "show", wsS, istr "more"]])) 15,
      .visibleText (pU (catx [istr "item", ropt (rchi 's'), wsS, istr "per", wsS,
        istr "page"])) 15,
      .linkText (pA (orx [istr "next", catx [istr "prev", ropt (istr "ious")],
        rplus digitC, rch '»', rch '«', rch '>', rch '<'])) 15,
      .linkHref (pU (catx [.cls (fun c => c == '?' || c == '&'), istr "page=",
        rplus digitC])) 20,
      .url (pU (.cat (rch '/') (orx [catx [istr "product", ropt (rchi 's')],
        catx [istr "item", ropt (rchi 's')], catx [istr "listing", ropt (rchi 's')],
        istr "catalog", catx [istr "article", ropt (rchi 's')],
        catx [istr "post", ropt (rchi 's')], istr "blog"]))) 20,
      .url (pU (catx [rch '/', istr "category", rch '/'])) 15
    ] }

/-- `PATTERNS.CONTACT_SUPPORT` of `patterns.js`. -/
def contactSupportPattern : Pattern :=
  { id := "CONTACT_SUPPORT"
    name := "Contact / Support Page"
    descr := "Contact forms, support pages, help centers"
    signals := [
      .inputName (pA (orx [istr "name", istr "fullname",
        catx [istr "first", ropt dotC, istr "name"]])) 10,
      .inputName (pA (orx [istr "email", istr "e-mail"])) 10,
      .inputName (pA (orx [istr "message", istr "subject", istr "inquiry",
        istr "question"])) 20,
      .inputType "textarea" 15,
      .buttonText (pA (orx [istr "send", istr "submit",
        catx [istr "contact", wsS, istr "us"]])) 20,
      .buttonText (pA (orx [catx [istr "get", wsS, istr "help"],
        catx [istr "ask", wsS, ropt (rchi 'a'), wsS, istr "question"]])) 20,
      .visibleText (pU (orx [catx [istr "contact", wsS, istr "us"],
        catx [istr "get", wsS, istr "in", wsS, istr "touch"]])) 25,
      .visibleText (pU (orx [istr "support",
        catx [istr "help", wsS, istr "center"], istr "faq"])) 20,
      .visibleText (pU (orx [catx [istr "email", wsS, istr "us"],
        catx [istr "call", wsS, istr "us"],
        catx [istr "write", wsS, istr "to", wsS, istr "us"]])) 20,
      .visibleText (pU (orx [istr "phone", istr "telephone", istr "address",
        istr "location"])) 15,
      .visibleText (pU (orx [catx [istr "business", wsS, istr "hours"],
        catx [istr "office", wsS, istr "hours"]])) 15,
      .url (pU (.cat (rch '/') (orx [istr "contact", istr "support", istr "help",
        istr "faq", istr "reach-us"]))) 25
    ] }

/-- `PATTERNS.ECOMMERCE` of `patterns.js`. -/
def ecommercePattern : Pattern :=
  { id := "ECOMMERCE"
    name := "E-commerce Page"
    descr := "Shopping, cart, and checkout pages"
    signals := [
      .buttonText (pA (orx [catx [istr "add", wsS, istr "to", wsS, istr "cart"],
        catx [istr "buy", wsS, istr "now"], istr "purchase"])) 35,
      .buttonText (pA (orx [istr "checkout",
        catx [istr "proceed", wsS, istr "to", wsS, istr "checkout"]])) 30,
      .buttonText (pA (orx [catx [istr "view", wsS, istr "cart"],
        catx [istr "shopping", wsS, istr "cart"]])) 25,
      .visibleText (pU (orx [catx [rch '$', rplus digitC, ropt (rch '.'), .star digitC],
        catx [rplus digitC, ropt (rch '.'), .star digitC, wsS,
          orx [istr "USD", istr "EUR", istr "GBP"]]])) 20,
      .visibleText (pU (orx [catx [istr "add", wsS, istr "to", wsS, istr "cart"],
        catx [istr "in", wsS, istr "stock"],
        catx [istr "out", wsS, istr "of", wsS, istr "stock"]])) 25,
      .visibleText (pU (orx [catx [istr "free", wsS, istr "shipping"],
        catx [istr "shipping", dotS, rch '$']])) 20,
      .visibleText (pU (orx [istr "quantity", istr "qty"])) 15,
      .visibleText (pU (orx [catx [istr "your", wsS, istr "cart"],
        catx [istr "shopping", wsS, istr "cart"]])) 25,
      .linkText (pA (orx [istr "cart", istr "checkout", istr "shop", istr "store"])) 20,
      .url (pU (.cat (rch '/') (orx [istr "shop", istr "store", istr "cart",
        istr "checkout", istr "product"]))) 25
    ] }

/-- `PATTERNS.DASHBOARD` of `patterns.js`. -/
def dashboardPattern : Pattern :=
  { id := "DASHBOARD"
    name := "Dashboard / App Page"
    descr := "Application dashboards and user portals"
    signals := [
      .visibleText (pU (orx [istr "dashboard", istr "overview", istr "analytics"])) 25,
      .visibleText (pU (orx [catx [istr "welcome", wsS, istr "back"],
        catx [istr "hello", ropt (rch ','), wsS, rplus wordC]])) 20,
      .visibleText (pU (orx [catx [istr "my", wsS, istr "account"],
        catx [istr "my", wsS, istr "profile"], istr "settings"])) 20,
      .visibleText (pU (orx [catx [istr "recent", wsS, istr "activity"],
        catx [istr "notification", ropt (rchi 's')]])) 15,
      .visibleText (pU (orx [catx [istr "log", wsS, istr "out"],
        catx [istr "sign", wsS, istr "out"]])) 20,
      .linkText (pA (orx [istr "dashboard", istr "settings", istr "profile",
        istr "account", istr "logout"])) 20,
      .url (pU (.cat (rch '/') (orx [istr "dashboard", istr "app", istr "portal",
        istr "admin", istr "account", istr "settings"]))) 25
    ] }

/-- `PATTERNS.PRICING_PAGE` of `patterns.js`. -/
def pricingPagePattern : Pattern :=
  { id := "PRICING_PAGE"
    name := "Pricing Page"
    descr := "Pricing plans and subscription pages"
    signals := [
      .visibleText (pU (orx [istr "pricing",
        catx [istr "plan", ropt (rchi 's'), wsS, ropt (rch '&'), wsS,
          istr "pricing"]])) 30,
      .visibleText (pU (catx [rch '$', rplus digitC, wsS, ropt (rch '/'), wsS,
        orx [istr "mo", istr "month", istr "year", istr "yr"]])) 35,
      .visibleText (pU (orx [catx [istr "free", wsS, istr "plan"],
        catx [istr "basic", wsS, istr "plan"], catx [istr "pro", wsS, istr "plan"],
        istr "enterprise"])) 25,
      .visibleText (pU (catx [istr "per", wsS,
        orx [istr "user", istr "seat", istr "month"]])) 20,
      .visibleText (pU (catx [istr "billed", wsS,
        orx [istr "monthly", istr "annually", istr "yearly"]])) 25,
      .visibleText (pU (orx [catx [istr "compare", wsS, istr "plan", ropt (rchi 's')],
        catx [istr "all", wsS, istr "feature", ropt (rchi 's')]])) 20,
      .buttonText (pA (catx [orx [istr "choose", istr "select", istr "get"], wsS,
        ropt (catx [istr "this", wsS]), orx [istr "plan", istr "started"]])) 25,
      .buttonText (pA (orx [istr "upgrade", istr "subscribe",
        catx [istr "start", wsS, istr "free", wsS, istr "trial"]])) 25,
      .url (pU (.cat (rch '/') (orx [istr "pricing", istr "plans",
        istr "subscribe"]))) 30
    ] }

/-- `PATTERNS.UPLOAD_PAGE` of `patterns.js`. -/
def uploadPagePattern : Pattern :=
  { id := "UPLOAD_PAGE"
    name := "Upload / Submit Page"
    descr := "Pages for uploading files, media, or submitting user content"
    signals := [
      .inputType "file" 40,
      .inputName (pA (catx [orx [istr "file", istr "upload", istr "attachment",
        istr "document", istr "media", istr "image", istr "video", istr "photo"],
        ropt (rchi 's')])) 25,
      .buttonText (pA (orx [istr "upload", catx [istr "upload", wsS, istr "file"],
        catx [istr "upload", wsS, istr "file", ropt (rchi 's')]])) 30,
      .buttonText (pA (orx [catx [istr "choose", wsS, istr "file"],
        catx [istr "select", wsS, istr "file"],
        catx [istr "browse", wsS, istr "file", ropt (rchi 's')]])) 25,
      .buttonText (pA (orx [istr "submit", istr "publish", istr "post",
        istr "share"])) 15,
      .buttonText (pA (catx [istr "add", wsS, orx [istr "file", istr "image",
        istr "photo", istr "video", istr "media", istr "document"]])) 25,
      .visibleText (pU (catx [istr "drag", wsS, ropt (orx [istr "and", rch '&']), wsS,
        istr "drop"])) 30,
      .visibleText (pU (catx [istr "drop", wsS, ropt (catx [istr "your", wsS]),
        orx [catx [istr "file", ropt (rchi 's')], catx [istr "image", ropt (rchi 's')],
          catx [istr "document", ropt (rchi 's')]], wsS, istr "here"])) 30,
      .visibleText (pU (catx [istr "upload", wsS, ropt (catx [istr "your", wsS]),
        orx [catx [istr "file", ropt (rchi 's')], catx [istr "image", ropt (rchi 's')],
          catx [istr "photo", ropt (rchi 's')], catx [istr "video", ropt (rchi 's')],
          catx [istr "document", ropt (rchi 's')], istr "content"]])) 25,
      .visibleText (pU (catx [istr "select", wsS, ropt (catx [istr "a", wsS]),
        orx [istr "file", istr "image", istr "photo", istr "video", istr "document"],
        wsS, istr "to", wsS, istr "upload"])) 25,
      .visibleText (pU (catx [istr "supported", wsS,
        ropt (catx [istr "file", wsS]),
        orx [catx [istr "format", ropt (rchi 's')],
          catx [istr "type", ropt (rchi 's')]]])) 20,
      .visibleText (pU (catx [istr "max", ropt (istr "imum"), wsS,
        ropt (catx [istr "file", wsS]), istr "size"])) 20,
      .visibleText (pU (.cat (rch '.') (orx [istr "jpg", istr "jpeg", istr "png",
        istr "gif", istr "pdf", istr "doc", istr "docx", istr "mp4", istr "mov",
        istr "zip"]))) 15,
      .visibleText (pU (catx [istr "click", wsS, ropt (catx [istr "here", wsS]),
        istr "to", wsS, orx [istr "upload", istr "browse", istr "select"]])) 20,
      .url (pU (.cat (rch '/') (orx [istr "upload", istr "submit", istr "import",
        istr "add-file", istr "new-post", istr "create", istr "share"]))) 25,
      .url (pU (.cat (rch '/') (orx [istr "media", catx [istr "file", ropt (rchi 's')],
        catx [istr "document", ropt (rchi 's')],
        catx [istr "attachment", ropt (rchi 's')]]))) 20
    ] }

/-- The fixed catalog, in the key order of the `PATTERNS` object
(`getPatternIds()` returns this order). -/
def PATTERNS : List Pattern :=
  [authPagePattern, searchPagePattern, landingPagePattern, contentListingPattern,
   contactSupportPattern, ecommercePattern, dashboardPattern, pricingPagePattern,
   uploadPagePattern]

/-! ## Classification engine (`classifier.js`) -/

structure SignalMatch where
  signalType : String
  matchedValue : String
  weight : Nat
deriving DecidableEq

structure PatternMatch where
  patternId : String
  patternName : String
  confidence : Nat
  evidence : List SignalMatch
deriving DecidableEq

/-- `checkSignal(signal, snapshot)` of `classifier.js`: each list-backed
signal kind matches on the first element satisfying the matcher
(`for ... return` in the source, `List.find?` here). -/
def checkSignal (signal : Signal) (snap : PageSnapshot) : Option SignalMatch :=
  match signal with
  | .inputType value weight =>
      (snap.inputs.find? (fun input => input.type == value)).map
        (fun _ => ⟨"input_type", "input[type=\"" ++ value ++ "\"]", weight⟩)
  | .inputName pat weight =>
      (snap.inputs.find? (fun input => pat.test input.name)).map
        (fun input => ⟨"input_name", "input[name=\"" ++ input.name ++ "\"]", weight⟩)
  | .inputPlaceholder pat weight =>
      (snap.inputs.find? (fun input => pat.test input.placeholder)).map
        (fun input =>
          ⟨"input_placeholder", "placeholder: \"" ++ input.placeholder ++ "\"", weight⟩)
  | .buttonText pat weight =>
      (snap.buttons.find? (fun button => pat.test button.text)).map
        (fun button => ⟨"button_text", "button: \"" ++ button.text ++ "\"", weight⟩)
  | .linkText pat weight =>
      (snap.links.find? (fun link => pat.test link.text)).map
        (fun link => ⟨"link_text", "link: \"" ++ link.text ++ "\"", weight⟩)
  | .linkHref pat weight =>
      (snap.links.find? (fun link => pat.test link.href)).map
        (fun link => ⟨"link_href", "href: \"" ++ link.href ++ "\"", weight⟩)
  | .visibleText pat weight =>
      if pat.test snap.visibleText then
        some ⟨"visible_text",
          "text: \"" ++ takeStr 50 (pat.first snap.visibleText) ++ "\"", weight⟩
      else none
  | .url pat weight =>
      if pat.test snap.url then
        some ⟨"url", "url: \"" ++ snap.url ++ "\"", weight⟩
      else none

/-- Stable insertion into a list sorted by a descending `Nat` key (an
earlier element goes before later elements with an equal key), modelling
the stable JS `Array.sort` with comparator `(a, b) => key b - key a`. -/
def insertByDesc {α : Type} (key : α → Nat) (x : α) : List α → List α
  | [] => [x]
  | y :: ys => if key y ≤ key x then x :: y :: ys else y :: insertByDesc key x ys

def sortByDesc {α : Type} (key : α → Nat) : List α → List α
  | [] => []
  | x :: xs => insertByDesc key x (sortByDesc key xs)

/-- The per-pattern body of the `classifyPage` loop: accumulate the
evidence list and the summed confidence over the pattern's signals. -/
def patternEvidence (pattern : Pattern) (snap : PageSnapshot) :
    List SignalMatch × Nat :=
  pattern.signals.foldl
    (fun acc signal =>
      match checkSignal signal snap with
      | some m => (acc.1 ++ [m], acc.2 + m.weight)
      | none => acc)
    ([], 0)

/-- `classifyPage(snapshot)` of `classifier.js`. -/
def classifyPage (snap : PageSnapshot) : List PatternMatch :=
  sortByDesc (fun m => m.confidence)
    (PATTERNS.filterMap (fun pattern =>
      let ev := patternEvidence pattern snap
      if 0 < ev.2 then some ⟨pattern.id, pattern.name, ev.2, ev.1⟩ else none))

/-- `getPrimaryClassification(snapshot)` of `classifier.js`. -/
def getPrimaryClassification (snap : PageSnapshot) : Option PatternMatch :=
  (classifyPage snap).head?

structure EvidencePage where
  url : String
  confidence : Nat
  topEvidence : List SignalMatch
deriving DecidableEq

structure Feature where
  patternId : String
  patternName : String
  maxConfidence : Nat
  totalOccurrences : Nat
  evidencePages : List EvidencePage
deriving DecidableEq

structure PageClassification where
  url : String
  title : String
  classifications : List PatternMatch
deriving DecidableEq

/-- The mutation applied to one aggregated feature when a page matched
its pattern: bump `totalOccurrences`, raise `maxConfidence` when
exceeded, append an evidence page keeping the top 3 signals. -/
def bumpFeature (url : String) (m : PatternMatch) (f : Feature) : Feature :=
  { f with
    totalOccurrences := f.totalOccurrences + 1
    maxConfidence := if f.maxConfidence < m.confidence then m.confidence
      else f.maxConfidence
    evidencePages := f.evidencePages ++ [⟨url, m.confidence, m.evidence.take 3⟩] }

/-- The `detectedFeatures` object of `classifyAllPages`, as an
insertion-ordered association list: a missing key is appended with the
zero-initialised entry and then bumped. -/
def updateFeatures (url : String) (m : PatternMatch) : List Feature → List Feature
  | [] => [bumpFeature url m ⟨m.patternId, m.patternName, 0, 0, []⟩]
  | f :: fs =>
      if f.patternId == m.patternId then bumpFeature url m f :: fs
      else f :: updateFeatures url m fs

structure ClassifyAllResult where
  pageClassifications : List PageClassification
  detectedFeatures : List Feature
deriving DecidableEq

/-- One iteration of the `for (const snapshot of snapshots)` loop of
`classifyAllPages`. -/
def classifyAllStep (acc : List PageClassification × List Feature)
    (snap : PageSnapshot) : List PageClassification × List Feature :=
  let ms := classifyPage snap
  (acc.1 ++ [PageClassification.mk snap.url snap.title ms],
   ms.foldl (fun fs m => updateFeatures snap.url m fs) acc.2)

/-- `classifyAllPages(snapshots)` of `classifier.js`. -/
def classifyAllPages (snapshots : List PageSnapshot) : ClassifyAllResult :=
  let acc := snapshots.foldl classifyAllStep
    (([], []) : List PageClassification × List Feature)
  ⟨acc.1, sortByDesc (fun f => f.maxConfidence) acc.2⟩

example : classifyPage ⟨"", "", "", [], [], []⟩ = [] := by decide
example :
    (classifyPage ⟨"", "", "", [⟨"password", "", ""⟩, ⟨"email", "", ""⟩], [⟨"Log In", "submit"⟩], []⟩).map
      (fun m => (m.patternId, m.confidence)) = [("AUTH_PAGE", 70)] := by decide

/-! ## Claim extraction (`extractor/claims.js`) -/

structure ClaimCategory where
  id : String
  label : String
  keywords : List Pat

/-- The `SEARCH_FUNCTIONALITY` entry of `CLAIM_PATTERNS`. -/
def searchFunctionalityCategory : ClaimCategory :=
  ⟨"SEARCH_FUNCTIONALITY", "Search functionality", [
    pU (istr "search"),
    pU (catx [istr "find", wsP, orx [istr "your", istr "what", istr "the"]]),
    pU (catx [istr "look", wsS, istr "up"]),
    pU (istr "discover"),
    pU (istr "browse")]⟩

/-- `CLAIM_PATTERNS` of `claims.js`, in object key order. -/
def CLAIM_PATTERNS : List ClaimCategory := [
  searchFunctionalityCategory,
  ⟨"USER_ACCOUNTS", "User accounts", [
    pU (catx [istr "sign", wsS, orx [istr "up", istr "in"]]),
    pU (catx [istr "create", dotS, istr "account"]),
    pU (istr "register"),
    pU (catx [istr "log", wsS, istr "in"]),
    pU (istr "member"),
    pU (catx [istr "your", wsS, istr "account"])]⟩,
  ⟨"ECOMMERCE", "E-commerce / Shopping", [
    pU (istr "shop"),
    pU (istr "buy"),
    pU (istr "purchase"),
    pU (catx [istr "add", wsS, istr "to", wsS, istr "cart"]),
    pU (istr "checkout"),
    pU (istr "order"),
    pU (istr "pricing"),
    pU (catx [rch '$', rplus digitC])]⟩,
  ⟨"CONTACT_SUPPORT", "Contact / Support", [
    pU (catx [istr "contact", wsS, ropt (istr "us")]),
    pU (istr "support"),
    pU (istr "help"),
    pU (catx [istr "get", wsS, istr "in", wsS, istr "touch"]),
    pU (catx [istr "reach", wsS, orx [istr "out", istr "us"]]),
    pU (istr "faq")]⟩,
  ⟨"NEWSLETTER", "Newsletter subscription", [
    pU (istr "newsletter"),
    pU (istr "subscribe"),
    pU (catx [istr "stay", wsS, istr "updated"]),
    pU (catx [istr "email", wsS, istr "list"]),
    pU (catx [istr "mailing", wsS, istr "list"])]⟩,
  ⟨"FREE_TRIAL", "Free trial", [
    pU (catx [istr "free", wsS, istr "trial"]),
    pU (catx [istr "try", wsS, ropt (catx [istr "it", wsS]), istr "free"]),
    pU (catx [istr "start", wsS, istr "free"]),
    pU (catx [istr "no", wsS, istr "credit", wsS, istr "card"]),
    pU (catx [istr "free", wsS, istr "plan"])]⟩,
  ⟨"DEMO", "Demo booking", [
    pU (catx [istr "book", wsS, ropt (rchi 'a'), wsS, istr "demo"]),
    pU (catx [istr "request", wsS, istr "demo"]),
    pU (catx [istr "schedule", wsS, istr "demo"]),
    pU (catx [istr "see", wsS, istr "it", wsS, istr "in", wsS, istr "action"]),
    pU (catx [istr "live", wsS, istr "demo"])]⟩,
  ⟨"API", "API / Developers", [
    pWB "api",
    pU (istr "developer"),
    pU (istr "integration"),
    pU (istr "sdk"),
    pU (istr "documentation")]⟩,
  ⟨"MOBILE_APP", "Mobile app", [
    pU (catx [istr "mobile", wsS, istr "app"]),
    pU (istr "ios"),
    pU (istr "android"),
    pU (catx [istr "app", wsS, istr "store"]),
    pU (catx [istr "google", wsS, istr "play"]),
    pU (catx [istr "download", dotS, istr "app"])]⟩,
  ⟨"BLOG", "Blog / Resources", [
    pWB "blog",
    pU (catx [istr "article", ropt (rchi 's')]),
    pU (istr "news"),
    pU (catx [istr "insight", ropt (rchi 's')]),
    pU (catx [istr "resource", ropt (rchi 's')])]⟩,
  ⟨"PRICING_TIERS", "Pricing tiers", [
    pU (istr "pricing"),
    pU (catx [istr "plan", ropt (rchi 's')]),
    pU (catx [istr "package", ropt (rchi 's')]),
    pU (istr "subscription"),
    pU (catx [istr "per", wsS, orx [istr "month", istr "user", istr "seat"]]),
    pU (istr "enterprise")]⟩,
  ⟨"ANALYTICS", "Analytics / Dashboard", [
    pU (istr "analytics"),
    pU (istr "dashboard"),
    pU (catx [istr "report", ropt (rchi 's')]),
    pU (istr "metrics"),
    pU (catx [istr "insight", ropt (rchi 's')]),
    pU (istr "tracking")]⟩,
  ⟨"SOCIAL_LOGIN", "Social login", [
    pU (catx [istr "sign", wsS, istr "in", wsS, istr "with", wsS,
      orx [istr "google", istr "facebook", istr "apple", istr "github"]]),
    pU (catx [istr "social", wsS, istr "login"]),
    pU (catx [istr "continue", wsS, istr "with"])]⟩,
  ⟨"CHAT_SUPPORT", "Chat support", [
    pU (catx [istr "live", wsS, istr "chat"]),
    pU (catx [istr "chat", wsS, istr "with", wsS, istr "us"]),
    pU (catx [istr "chat", wsS, istr "support"]),
    pU (istr "chatbot"),
    pU (catx [istr "talk", wsS, istr "to", dotS, istr "support"])]⟩,
  ⟨"TEAM_COLLABORATION", "Team collaboration", [
    pU (istr "team"),
    pU (istr "collaborate"),
    pU (catx [istr "share", wsS, istr "with"]),
    pU (catx [istr "invite", wsS, orx [istr "members", istr "users"]]),
    pU (istr "workspace")]⟩]

/-- `CTA_PATTERNS` of `claims.js`: pattern and the named CTA claim. -/
def CTA_PATTERNS : List (Pat × String) := [
  (pU (catx [istr "get", wsS, istr "started"]), "Easy onboarding"),
  (pU (catx [istr "learn", wsS, istr "more"]), "Detailed documentation"),
  (pU (catx [istr "start", wsS, istr "free", wsS, istr "trial"]), "Free trial"),
  (pU (catx [istr "book", wsS, ropt (rchi 'a'), wsS, istr "demo"]), "Demo booking"),
  (pU (catx [istr "contact", wsS, istr "sales"]), "Sales team"),
  (pU (catx [istr "download", wsS, ropt (orx [istr "now", istr "free"])]),
    "Downloadable content"),
  (pU (catx [istr "sign", wsS, istr "up", wsS, istr "free"]), "Free signup"),
  (pU (catx [istr "try", wsS, istr "for", wsS, istr "free"]), "Free trial")]

structure Claim where
  id : String
  label : String
  confidence : Nat
  evidence : List String
deriving DecidableEq

structure ExtractResult where
  url : String
  claims : List Claim
  ctaActions : List String
  description : String
deriving DecidableEq

/-- The value-proposition opener regexes of `extractDescription`. -/
def valuePropPats : List Pat := [
  pS (catx [ropt (catx [istr "we", wsP]),
    orx [istr "help", istr "enable", istr "empower",
      catx [istr "make", wsP, istr "it", wsP, istr "easy"]]]),
  pS (catx [istr "the", wsP,
    orx [istr "best", istr "fastest", istr "easiest", istr "most", istr "only"]]),
  pS (orx [istr "build", istr "create", istr "manage", istr "automate",
    istr "streamline", istr "simplify"]),
  pS (catx [orx [istr "your", istr "the"], wsP,
    orx [istr "all-in-one", istr "complete", istr "ultimate"]])]

/-- The trimmed body-text lines of qualifying length (strictly between
20 and 200 characters), as computed by `extractDescription`. -/
def descLines (text : String) : List String :=
  ((splitStr '\n' text).map trimStr).filter
    (fun l => 20 < l.length && l.length < 200)

/-- `extractDescription(text)` of `claims.js`: among the first 10
qualifying lines, the first one matching a value-proposition opener;
otherwise the first qualifying line; otherwise the empty string. -/
def openerTest (line : String) : Bool :=
  valuePropPats.any (fun pat => pat.test line)

def extractDescription (text : String) : String :=
  let lines := descLines text
  match (lines.take 10).find? openerTest with
  | some line => line
  | none => lines.headD ""

/-- First-occurrence-order deduplication, the JS `[...new Set(xs)]`. -/
def dedupFirst (l : List String) : List String :=
  l.foldl (fun acc x => if acc.contains x then acc else acc ++ [x]) []

/-- The matched keywords of one claim category: for each keyword regex
that tests true on the combined corpus, the leftmost matched substring. -/
def matchedKeywords (keywords : List Pat) (combinedText : String) : List String :=
  keywords.foldl
    (fun acc pat =>
      if pat.test combinedText then acc ++ [pat.first combinedText] else acc)
    []

/-- The body of the claim-category loop of `extractClaims`: when at
least one keyword hit, append the claim with confidence
`min(hits * 25, 100)` and the first three matched substrings. -/
def claimStep (combinedText : String) (acc : List Claim) (config : ClaimCategory) :
    List Claim :=
  let mk := matchedKeywords config.keywords combinedText
  if 0 < mk.length then
    acc ++ [⟨config.id, config.label, min (mk.length * 25) 100, mk.take 3⟩]
  else acc

/-- The combined corpus of `extractClaims`: visible text followed by
the space-joined button texts and link texts. -/
def combinedCorpus (snap : PageSnapshot) : String :=
  snap.visibleText ++ " " ++ String.intercalate " " (snap.buttons.map (fun b => b.text))
    ++ " " ++ String.intercalate " " (snap.links.map (fun l => l.text))

/-- `extractClaims(snapshot)` of `claims.js`. -/
def extractClaims (snap : PageSnapshot) : ExtractResult :=
  let buttonTexts := String.intercalate " " (snap.buttons.map (fun b => b.text))
  let linkTexts := String.intercalate " " (snap.links.map (fun l => l.text))
  let claims := CLAIM_PATTERNS.foldl (claimStep (combinedCorpus snap)) []
  let ctaClaims := CTA_PATTERNS.foldl
    (fun acc cta =>
      if cta.1.test buttonTexts || cta.1.test linkTexts then acc ++ [cta.2] else acc)
    []
  ⟨snap.url, sortByDesc (fun c => c.confidence) claims, dedupFirst ctaClaims,
    extractDescription snap.visibleText⟩

/-- `CLAIM_TO_PATTERN_MAP` of `claims.js`. -/
def CLAIM_TO_PATTERN_MAP : List (String × List String) := [
  ("SEARCH_FUNCTIONALITY", ["SEARCH_PAGE"]),
  ("USER_ACCOUNTS", ["AUTH_PAGE", "DASHBOARD"]),
  ("ECOMMERCE", ["ECOMMERCE", "PRICING_PAGE"]),
  ("CONTACT_SUPPORT", ["CONTACT_SUPPORT"]),
  ("PRICING_TIERS", ["PRICING_PAGE"]),
  ("ANALYTICS", ["DASHBOARD"]),
  ("FREE_TRIAL", ["LANDING_PAGE", "PRICING_PAGE"]),
  ("DEMO", ["LANDING_PAGE", "CONTACT_SUPPORT"])]

/-- The JS `CLAIM_TO_PATTERN_MAP[claim.id] || []`. -/
def claimToPatterns (id : String) : List String :=
  ((CLAIM_TO_PATTERN_MAP.find? (fun e => e.1 == id)).map (fun e => e.2)).getD []

/-! ## Comparison engine (`crawler.js`, `compareClaimsVsDetections`)

The JS `Set`s `matchedClaimIds` / `matchedPatternIds` are modelled as
lists used only through membership, and the `Map` of detected features
through `detectedGet` (last entry wins, as `Map.set` overwrites).  The
`analysis` prose summary (`generateAnalysisSummary`) is presentation
only (floating-point percentage rounding) and is not modelled. -/

structure MatchedFeature where
  claim : String
  detected : String
  confidence : Nat
deriving DecidableEq

structure Summary where
  claimedFeatures : List String
  detectedFeatures : List String
  matchedFeatures : List MatchedFeature
  missingFeatures : List String
  weakFeatures : List String
  unexpectedFeatures : List String
deriving DecidableEq

structure Finding where
  type : String
  feature : String
  confidence : Nat
  evidencePages : List String
  explanation : String
deriving DecidableEq

structure ComparisonResult where
  summary : Summary
  findings : List Finding
deriving DecidableEq

/-- Lookup in the map built by `detectedMap.set(feature.patternId, feature)`
over the detected features in order (a later duplicate overwrites). -/
def detectedGet (features : List Feature) (pid : String) : Option Feature :=
  features.foldl (fun acc f => if f.patternId == pid then some f else acc) none

/-- One step of the best-match selection loop: replace the current
best only when the looked-up feature has strictly greater
`maxConfidence` (first found wins ties). -/
def bestStep (features : List Feature) (best : Option Feature) (pid : String) :
    Option Feature :=
  match detectedGet features pid with
  | some d =>
      match best with
      | none => some d
      | some b => if b.maxConfidence < d.maxConfidence then some d else some b
  | none => best

/-- The best-match selection loop over a claim's related pattern ids. -/
def bestMatchFor (features : List Feature) (related : List String) : Option Feature :=
  related.foldl (bestStep features) none

def weakExplanation (label : String) (conf : Nat) : String :=
  "The website claims to offer \"" ++ label ++ "\", but the detection confidence is only "
    ++ toString conf
    ++ "%. This could indicate a hidden or poorly accessible feature."

def veryWeakExplanation (label : String) (conf : Nat) : String :=
  "The website claims to offer \"" ++ label ++ "\", but we found very weak evidence ("
    ++ toString conf
    ++ "% confidence). The feature may require authentication, use non-standard patterns, or not actually exist."

def noEvidenceExplanation (label : String) : String :=
  "The website claims to offer \"" ++ label
    ++ "\", but no observable evidence was found during crawling. Possible reasons: the feature requires authentication, is hidden behind user actions, or uses non-standard UI patterns."

def dncExplanation (nm : String) (conf : Nat) : String :=
  "Detected \"" ++ nm ++ "\" with " ++ toString conf
    ++ "% confidence, but this wasn\x27t explicitly mentioned in the website\x27s claims. This could be an underpromoted feature."

structure CompareAcc where
  findings : List Finding
  matchedClaimIds : List String
  matchedPatternIds : List String
  matchedFeatures : List MatchedFeature
  missingFeatures : List String
  weakFeatures : List String
deriving DecidableEq

/-- One iteration of the `for (const claim of claims)` loop. -/
def processClaim (features : List Feature) (acc : CompareAcc) (claim : Claim) :
    CompareAcc :=
  match bestMatchFor features (claimToPatterns claim.id) with
  | some bestMatch =>
      let acc' := { acc with
        matchedPatternIds := acc.matchedPatternIds ++ [bestMatch.patternId]
        matchedClaimIds := acc.matchedClaimIds ++ [claim.id] }
      if 50 ≤ bestMatch.maxConfidence then
        { acc' with matchedFeatures := acc'.matchedFeatures
            ++ [⟨claim.label, bestMatch.patternName, bestMatch.maxConfidence⟩] }
      else if 25 ≤ bestMatch.maxConfidence then
        { acc' with
          weakFeatures := acc'.weakFeatures ++ [claim.label]
          findings := acc'.findings ++ [⟨"weak_detection", claim.label,
            bestMatch.maxConfidence, bestMatch.evidencePages.map (fun p => p.url),
            weakExplanation claim.label bestMatch.maxConfidence⟩] }
      else
        { acc' with
          missingFeatures := acc'.missingFeatures ++ [claim.label]
          findings := acc'.findings ++ [⟨"claimed_not_detected", claim.label,
            bestMatch.maxConfidence, [],
            veryWeakExplanation claim.label bestMatch.maxConfidence⟩] }
  | none =>
      { acc with
        missingFeatures := acc.missingFeatures ++ [claim.label]
        findings := acc.findings ++ [⟨"claimed_not_detected", claim.label, 0, [],
          noEvidenceExplanation claim.label⟩] }

/-- One iteration of the `for (const feature of detectedFeatures)` loop
that emits `detected_not_claimed` findings; the accumulator pairs the
findings list with `summary.unexpectedFeatures`. -/
def processFeature (matchedClaimIds matchedPatternIds : List String)
    (acc : List Finding × List String) (feature : Feature) :
    List Finding × List String :=
  if matchedPatternIds.contains feature.patternId then acc
  else
    let hasRelatedClaim := CLAIM_TO_PATTERN_MAP.any
      (fun e => e.2.contains feature.patternId && matchedClaimIds.contains e.1)
    if !hasRelatedClaim && 25 ≤ feature.maxConfidence then
      (acc.1 ++ [⟨"detected_not_claimed", feature.patternName, feature.maxConfidence,
        feature.evidencePages.map (fun p => p.url),
        dncExplanation feature.patternName feature.maxConfidence⟩],
       acc.2 ++ [feature.patternName])
    else acc

/-- The finding severity rank of the final sort comparator (every
emitted finding has one of the three types). -/
def severityRank (t : String) : Nat :=
  if t == "claimed_not_detected" then 0
  else if t == "weak_detection" then 1
  else 2

/-- Stable insertion into a list sorted by an ascending `Nat` key,
modelling the stable JS `Array.sort` with `(a, b) => key a - key b`. -/
def insertByAsc {α : Type} (key : α → Nat) (x : α) : List α → List α
  | [] => [x]
  | y :: ys => if key x ≤ key y then x :: y :: ys else y :: insertByAsc key x ys

def sortByAsc {α : Type} (key : α → Nat) : List α → List α
  | [] => []
  | x :: xs => insertByAsc key x (sortByAsc key xs)

/-- `compareClaimsVsDetections(claimsResult, classificationResult)` of
`crawler.js` (the `claims` and `detectedFeatures` fields are what the
function destructures from its two arguments). -/
def compareClaimsVsDetections (claims : List Claim) (detectedFeatures : List Feature) :
    ComparisonResult :=
  let acc := claims.foldl (processClaim detectedFeatures)
    ⟨[], [], [], [], [], []⟩
  let second := detectedFeatures.foldl
    (processFeature acc.matchedClaimIds acc.matchedPatternIds) (acc.findings, [])
  { summary := {
      claimedFeatures := claims.map (fun c => c.label)
      detectedFeatures := detectedFeatures.map (fun f => f.patternName)
      matchedFeatures := acc.matchedFeatures
      missingFeatures := acc.missingFeatures
      weakFeatures := acc.weakFeatures
      unexpectedFeatures := second.2 }
    findings := sortByAsc (fun f => severityRank f.type) second.1 }

/-! ## Crawl traversal (`crawler.js`)

The Playwright renderer is an external collaborator; it is abstracted
as a fetch oracle `String → Except String RenderedPage` (error carries
`err.message`).  The WHATWG `new URL` parser of the JS runtime is
likewise external; `parseUrl` models it for the absolute `http(s)`
URLs exercised here (scheme `"://"` host, path up to query/fragment,
pathname defaulting to `"/"`). -/

def MAX_DEPTH : Nat := 2

def MAX_PAGES : Nat := 15

structure UrlParts where
  scheme : String
  host : String
  pathname : String

def UrlParts.origin (p : UrlParts) : String := p.scheme ++ "://" ++ p.host

/-- Scan for the `"://"` separator, returning scheme and remainder. -/
def findSchemeSep (acc : List Char) : List Char → Option (List Char × List Char)
  | ':' :: '/' :: '/' :: rest => some (acc.reverse, rest)
  | c :: cs => findSchemeSep (c :: acc) cs
  | [] => none

def parseUrl (url : String) : Option UrlParts :=
  match findSchemeSep [] url.data with
  | none => none
  | some (sch, rest) =>
      if sch.isEmpty then none
      else
        let host := rest.takeWhile (fun c => !(c == '/' || c == '?' || c == '#'))
        if host.isEmpty then none
        else
          let after := rest.drop host.length
          let path := after.takeWhile (fun c => !(c == '?' || c == '#'))
          some ⟨⟨sch⟩, ⟨host⟩, if path.isEmpty then "/" else ⟨path⟩⟩

/-- `getBaseDomain(url)` of `crawler.js` (`null` on parse failure). -/
def getBaseDomain (url : String) : Option String :=
  (parseUrl url).map UrlParts.origin

/-- `normalizeUrl(url)` of `crawler.js`: origin + pathname, one
trailing slash removed, lower-cased; the raw url on parse failure. -/
def normalizeUrl (url : String) : String :=
  match parseUrl url with
  | some p =>
      let normalized := p.origin ++ p.pathname
      lowerStr (if normalized.data.getLast? == some '/' then ⟨normalized.data.dropLast⟩
        else normalized)
  | none => url

/-- `isInternalUrl(url, baseDomain)` of `crawler.js`. -/
def isInternalUrl (url : String) (baseDomain : String) : Bool :=
  match parseUrl url with
  | some p => p.origin == baseDomain
  | none => false

/-- The `skipPatterns` regex list of `shouldSkipUrl`. -/
def skipPats : List Pat := [
  pE (.cat (rch '.') (orx [istr "pdf", istr "zip", istr "doc", istr "docx",
    istr "xls", istr "xlsx", istr "ppt", istr "pptx", istr "exe", istr "dmg"])),
  pE (.cat (rch '.') (orx [istr "jpg", istr "jpeg", istr "png", istr "gif",
    istr "svg", istr "webp", istr "ico"])),
  pE (.cat (rch '.') (orx [istr "mp3", istr "mp4", istr "avi", istr "mov",
    istr "wav"])),
  pE (.cat (rch '.') (orx [istr "css", istr "js", istr "json", istr "xml"])),
  pS (istr "mailto:"),
  pS (istr "tel:"),
  pS (istr "javascript:"),
  pE (rch '#'),
  pU (.cat (rch '/') (orx [istr "logout", istr "signout", istr "sign-out"]))]

/-- `shouldSkipUrl(url)` of `crawler.js`. -/
def shouldSkipUrl (url : String) : Bool :=
  skipPats.any (fun p => p.test url)

/-- The page-extraction result handed back by the external renderer
(`extractPageData` plus `page.url()`), with the browser-side defaults
already applied. -/
structure RenderedPage where
  url : String
  title : String
  visibleText : String
  inputs : List InputEl
  buttons : List ButtonEl
  links : List LinkEl

/-- The argument object `{url: page.url(), ...pageData}` of the
`createPageSnapshot` call site. -/
def rawOfRendered (pd : RenderedPage) : RawPageData :=
  ⟨some pd.url, some pd.title, some pd.visibleText,
   some (pd.inputs.map (fun i => ⟨some i.type, some i.name, some i.placeholder⟩)),
   some (pd.buttons.map (fun b => ⟨some b.text, some b.type⟩)),
   some (pd.links.map (fun l => ⟨some l.href, some l.text⟩))⟩

structure CrawlState where
  visited : List String
  queue : List (String × Nat)
  snapshots : List PageSnapshot
  crawlErrors : List (String × String)
deriving DecidableEq

/-- The link-enqueueing loop of a successful fetch: push each new link
at `depth + 1` while `queue.length + snapshots.length < MAX_PAGES * 2`
(with `snapCount` the snapshot count after the current page). -/
def enqueueLinks (snapCount : Nat) (depth : Nat) (queue : List (String × Nat))
    (newLinks : List String) : List (String × Nat) :=
  newLinks.foldl
    (fun q link =>
      if q.length + snapCount < MAX_PAGES * 2 then q ++ [(link, depth + 1)] else q)
    queue

/-- The `while` loop of `crawlWebsite`, with explicit fuel (the fuel
used by `crawlWebsite` is proven sufficient: see the halting theorem).
Guard, dedup/skip `continue`s, visited insertion before fetch, snapshot
and link collection on success, error recording on failure all follow
the source order. -/
def crawlLoop (fetch : String → Except String RenderedPage) (baseDomain : String) :
    Nat → CrawlState → CrawlState
  | 0, st => st
  | fuel + 1, st =>
      match st.queue with
      | [] => st
      | (url, depth) :: rest =>
          if MAX_PAGES ≤ st.snapshots.length then st
          else
            let normalizedUrl := normalizeUrl url
            if st.visited.contains normalizedUrl then
              crawlLoop fetch baseDomain fuel { st with queue := rest }
            else if shouldSkipUrl url then
              crawlLoop fetch baseDomain fuel { st with queue := rest }
            else
              let visited' := st.visited ++ [normalizedUrl]
              match fetch url with
              | .error msg =>
                  crawlLoop fetch baseDomain fuel
                    { st with
                      queue := rest
                      visited := visited'
                      crawlErrors := st.crawlErrors ++ [(url, msg)] }
              | .ok pageData =>
                  let snapshots' :=
                    st.snapshots ++ [createPageSnapshot (rawOfRendered pageData)]
                  let queue' :=
                    if depth < MAX_DEPTH then
                      let newLinks :=
                        (((pageData.links.map (fun l => l.href)).filter
                          (fun href => isInternalUrl href baseDomain)).filter
                          (fun href => !shouldSkipUrl href)).filter
                          (fun href => !visited'.contains (normalizeUrl href))
                      enqueueLinks snapshots'.length depth rest newLinks
                    else rest
                  crawlLoop fetch baseDomain fuel
                    { visited := visited'
                      queue := queue'
                      snapshots := snapshots'
                      crawlErrors := st.crawlErrors }

/-- Fuel bound for `crawlLoop`; the halting theorem shows the loop
reaches a halted state within it. -/
def crawlFuel : Nat := (MAX_PAGES + 1) * (2 * MAX_PAGES + 1)

/-- Crawl output (`crawledAt` and the static `config` echo are not
modelled; the final `visited` set and work queue, internal to the
source function, are exposed so the traversal invariants can be
stated). -/
structure CrawlResult where
  startUrl : String
  baseDomain : String
  totalPages : Nat
  snapshots : List PageSnapshot
  crawlErrors : List (String × String)
  crawlLimitations : List String
  visited : List String
  queueAtHalt : List (String × Nat)
deriving DecidableEq

/-- `crawlWebsite(startUrl)` of `crawler.js`, over a fetch oracle. -/
def crawlWebsite (fetch : String → Except String RenderedPage) (startUrl : String) :
    Except String CrawlResult :=
  match getBaseDomain startUrl with
  | none => .error "Invalid URL"
  | some baseDomain =>
      let final := crawlLoop fetch baseDomain crawlFuel ⟨[], [(startUrl, 0)], [], []⟩
      let lims₁ :=
        if 0 < final.queue.length then
          ["Stopped at " ++ toString MAX_PAGES ++ " pages, "
            ++ toString final.queue.length ++ " URLs remaining in queue"]
        else []
      let lims₂ :=
        if final.snapshots.length < final.visited.length then
          [toString (final.visited.length - final.snapshots.length)
            ++ " pages skipped due to errors"]
        else []
      .ok ⟨startUrl, baseDomain, final.snapshots.length, final.snapshots,
        final.crawlErrors, lims₁ ++ lims₂, final.visited, final.queue⟩

example : normalizeUrl "https://A.com/Path/" = "https://a.com/path" := by decide
example : normalizeUrl "https://a.com" = "https://a.com" := by decide
example : shouldSkipUrl "https://a.com/logout" = true := by decide
example : shouldSkipUrl "https://a.com/p1" = false := by decide
example : isInternalUrl "https://a.com/p1" "https://a.com" = true := by decide

/-! ## General lemmas -/

theorem insertByDesc_perm {α : Type} (key : α → Nat) (x : α) (l : List α) :
    List.Perm (insertByDesc key x l) (x :: l) := by
  induction l with
  | nil => simp [insertByDesc]
  | cons y ys ih =>
      simp only [insertByDesc]
      split
      · exact List.Perm.refl _
      · exact (ih.cons y).trans (List.Perm.swap x y ys)

theorem sortByDesc_perm {α : Type} (key : α → Nat) (l : List α) :
    List.Perm (sortByDesc key l) l := by
  induction l with
  | nil => exact List.Perm.refl _
  | cons x xs ih => exact (insertByDesc_perm key x (sortByDesc key xs)).trans (ih.cons x)

theorem mem_sortByDesc {α : Type} {key : α → Nat} {x : α} {l : List α} :
    x ∈ sortByDesc key l ↔ x ∈ l :=
  (sortByDesc_perm key l).mem_iff

theorem insertByAsc_perm {α : Type} (key : α → Nat) (x : α) (l : List α) :
    List.Perm (insertByAsc key x l) (x :: l) := by
  induction l with
  | nil => simp [insertByAsc]
  | cons y ys ih =>
      simp only [insertByAsc]
      split
      · exact List.Perm.refl _
      · exact (ih.cons y).trans (List.Perm.swap x y ys)

theorem sortByAsc_perm {α : Type} (key : α → Nat) (l : List α) :
    List.Perm (sortByAsc key l) l := by
  induction l with
  | nil => exact List.Perm.refl _
  | cons x xs ih => exact (insertByAsc_perm key x (sortByAsc key xs)).trans (ih.cons x)

theorem mem_sortByAsc {α : Type} {key : α → Nat} {x : α} {l : List α} :
    x ∈ sortByAsc key l ↔ x ∈ l :=
  (sortByAsc_perm key l).mem_iff

/-! ### Classification lemmas -/

/-- A signal match produced by `checkSignal` carries the signal's weight. -/
theorem checkSignal_weight {s : Signal} {snap : PageSnapshot} {m : SignalMatch}
    (h : checkSignal s snap = some m) : m.weight = s.weight := by
  cases s with
  | inputType v w =>
      simp only [checkSignal, Option.map_eq_some'] at h
      obtain ⟨_, _, rfl⟩ := h; rfl
  | inputName p w =>
      simp only [checkSignal, Option.map_eq_some'] at h
      obtain ⟨_, _, rfl⟩ := h; rfl
  | inputPlaceholder p w =>
      simp only [checkSignal, Option.map_eq_some'] at h
      obtain ⟨_, _, rfl⟩ := h; rfl
  | buttonText p w =>
      simp only [checkSignal, Option.map_eq_some'] at h
      obtain ⟨_, _, rfl⟩ := h; rfl
  | linkText p w =>
      simp only [checkSignal, Option.map_eq_some'] at h
      obtain ⟨_, _, rfl⟩ := h; rfl
  | linkHref p w =>
      simp only [checkSignal, Option.map_eq_some'] at h
      obtain ⟨_, _, rfl⟩ := h; rfl
  | visibleText p w =>
      simp only [checkSignal] at h
      split at h
      · cases h; rfl
      · cases h
  | url p w =>
      simp only [checkSignal] at h
      split at h
      · cases h; rfl
      · cases h

/-- The spec-level confidence of a pattern on a snapshot: the sum of
the weights of the signals that match, each counted once. -/
def patternConfidence (pattern : Pattern) (snap : PageSnapshot) : Nat :=
  ((pattern.signals.filter (fun s => (checkSignal s snap).isSome)).map Signal.weight).sum

theorem patternEvidence_go (snap : PageSnapshot) (sigs : List Signal)
    (ev : List SignalMatch) (n : Nat) :
    sigs.foldl
      (fun acc signal =>
        match checkSignal signal snap with
        | some m => (acc.1 ++ [m], acc.2 + m.weight)
        | none => acc) (ev, n)
    = (ev ++ sigs.filterMap (fun s => checkSignal s snap),
       n + ((sigs.filter (fun s => (checkSignal s snap).isSome)).map Signal.weight).sum) := by
  induction sigs generalizing ev n with
  | nil => simp
  | cons s ss ih =>
      cases hcs : checkSignal s snap with
      | none => simp [List.foldl_cons, hcs, ih, List.filter_cons, List.filterMap_cons]
      | some m =>
          simp [List.foldl_cons, hcs, ih, List.filter_cons, List.filterMap_cons,
            checkSignal_weight hcs, Nat.add_assoc]

/-- The confidence accumulated by the `classifyPage` loop is the sum of
the weights of the matching signals. -/
theorem patternEvidence_eq (pattern : Pattern) (snap : PageSnapshot) :
    patternEvidence pattern snap
    = (pattern.signals.filterMap (fun s => checkSignal s snap),
       patternConfidence pattern snap) := by
  simpa using patternEvidence_go snap pattern.signals [] 0

/-- The un-sorted entry `classifyPage` computes for one pattern. -/
def classifyEntry (snap : PageSnapshot) (pattern : Pattern) : Option PatternMatch :=
  let ev := patternEvidence pattern snap
  if 0 < ev.2 then some ⟨pattern.id, pattern.name, ev.2, ev.1⟩ else none

theorem classifyPage_eq (snap : PageSnapshot) :
    classifyPage snap
    = sortByDesc (fun m => m.confidence) (PATTERNS.filterMap (classifyEntry snap)) := rfl

theorem mem_classifyPage {snap : PageSnapshot} {m : PatternMatch} :
    m ∈ classifyPage snap ↔ ∃ p ∈ PATTERNS, classifyEntry snap p = some m := by
  rw [classifyPage_eq, mem_sortByDesc, List.mem_filterMap]

theorem PATTERNS_ids_nodup : (PATTERNS.map Pattern.id).Nodup := by decide

theorem PATTERNS_id_inj {p q : Pattern} (hp : p ∈ PATTERNS) (hq : q ∈ PATTERNS)
    (h : p.id = q.id) : p = q :=
  List.inj_on_of_nodup_map PATTERNS_ids_nodup hp hq h

/-! ## Claim C1 -/

/-- Claim C1: for every snapshot and every pattern in the fixed
catalog, `classifyPage` scores the pattern with confidence equal to the
exact sum of the weights of its matching signals — each signal counted
at most once, matching being decided on the first satisfying element
(`checkSignal`) — and the pattern occurs in the returned match list if
and only if this confidence is strictly positive. -/
theorem classifyPage_confidence (snap : PageSnapshot) (p : Pattern)
    (hp : p ∈ PATTERNS) :
    ((∃ m ∈ classifyPage snap, m.patternId = p.id) ↔ 0 < patternConfidence p snap)
    ∧ ∀ m ∈ classifyPage snap, m.patternId = p.id →
        m.confidence = patternConfidence p snap := by
  have hentry : ∀ q m, classifyEntry snap q = some m →
      m.patternId = q.id ∧ m.confidence = patternConfidence q snap
        ∧ 0 < patternConfidence q snap := by
    intro q m h
    simp only [classifyEntry, patternEvidence_eq] at h
    split at h
    · cases h; exact ⟨rfl, rfl, by assumption⟩
    · cases h
  refine ⟨⟨?_, ?_⟩, ?_⟩
  · rintro ⟨m, hm, hid⟩
    obtain ⟨q, hq, he⟩ := mem_classifyPage.mp hm
    obtain ⟨h1, _, h3⟩ := hentry q m he
    have hqp : q = p := PATTERNS_id_inj hq hp (by rw [← h1, hid])
    exact hqp ▸ h3
  · intro hpos
    refine ⟨⟨p.id, p.name, patternConfidence p snap,
      p.signals.filterMap (fun s => checkSignal s snap)⟩, ?_, rfl⟩
    apply mem_classifyPage.mpr
    exact ⟨p, hp, by simp [classifyEntry, patternEvidence_eq, hpos]⟩
  · intro m hm hid
    obtain ⟨q, hq, he⟩ := mem_classifyPage.mp hm
    obtain ⟨h1, h2, _⟩ := hentry q m he
    have hqp : q = p := PATTERNS_id_inj hq hp (by rw [← h1, hid])
    rw [h2, hqp]

def c1Snap : PageSnapshot :=
  ⟨"", "", "", [⟨"password", "", ""⟩, ⟨"email", "", ""⟩], [⟨"Log In", "submit"⟩], []⟩

/-- Witness for C1 at a concrete snapshot and the catalog's
authentication pattern. -/
theorem classifyPage_confidence_witness :
    ((∃ m ∈ classifyPage c1Snap, m.patternId = authPagePattern.id) ↔
      0 < patternConfidence authPagePattern c1Snap)
    ∧ ∀ m ∈ classifyPage c1Snap, m.patternId = authPagePattern.id →
        m.confidence = patternConfidence authPagePattern c1Snap :=
  classifyPage_confidence c1Snap authPagePattern (by simp [PATTERNS])

example : patternConfidence authPagePattern c1Snap = 70 := by decide

/-! ## Claim C4 -/

/-- Does a `visible_text` signal match the empty text? -/
def sigMatchesEmptyText : Signal → Bool
  | .visibleText pat _ => pat.test ""
  | _ => false

/-- The test a `url` signal applies to a given url (`false` for the
other signal kinds). -/
def urlSigTest (s : Signal) (u : String) : Bool :=
  match s with
  | .url pat _ => pat.test u
  | _ => false

/-- No `visible_text` signal of the catalog matches the empty string. -/
theorem catalog_text_signals_no_empty_match :
    PATTERNS.all (fun p => p.signals.all (fun s => !sigMatchesEmptyText s)) = true := by
  decide

theorem checkSignal_none_of_empty {s : Signal} {snap : PageSnapshot}
    (h₁ : snap.inputs = []) (h₂ : snap.buttons = []) (h₃ : snap.links = [])
    (h₄ : snap.visibleText = "")
    (hu : urlSigTest s snap.url = false) (ht : sigMatchesEmptyText s = false) :
    checkSignal s snap = none := by
  cases s with
  | inputType v w => simp [checkSignal, h₁]
  | inputName p w => simp [checkSignal, h₁]
  | inputPlaceholder p w => simp [checkSignal, h₁]
  | buttonText p w => simp [checkSignal, h₂]
  | linkText p w => simp [checkSignal, h₃]
  | linkHref p w => simp [checkSignal, h₃]
  | visibleText p w =>
      simp only [sigMatchesEmptyText] at ht
      simp [checkSignal, h₄, ht]
  | url p w =>
      simp only [urlSigTest] at hu
      simp [checkSignal, hu]

/-- Counterexample to C4 as stated: a snapshot with empty inputs,
buttons, links and visible text, but with a homepage-shaped url, gets a
`LANDING_PAGE` match with confidence 25 > 0 (the catalog's url signals
ignore the emptiness of the other fields). -/
theorem classifyPage_url_only_match :
    (classifyPage ⟨"https://example.com", "", "", [], [], []⟩).map
      (fun m => (m.patternId, m.confidence)) = [("LANDING_PAGE", 25)] := by
  decide

/-- Claim C4, amended: a snapshot with empty inputs, buttons, links and
visible text yields no pattern match, provided additionally that its
url matches no url signal of the catalog (e.g. an empty url) — the
original "regardless of the snapshot's url field" fails by
`classifyPage_url_only_match`. -/
theorem classifyPage_all_empty (snap : PageSnapshot)
    (h₁ : snap.inputs = []) (h₂ : snap.buttons = []) (h₃ : snap.links = [])
    (h₄ : snap.visibleText = "")
    (h₅ : PATTERNS.all (fun p => p.signals.all (fun s => !urlSigTest s snap.url)) = true) :
    classifyPage snap = [] := by
  have hnone : ∀ p ∈ PATTERNS, ∀ s ∈ p.signals, checkSignal s snap = none := by
    intro p hp s hs
    have hu : urlSigTest s snap.url = false := by
      have h := (List.all_eq_true.mp ((List.all_eq_true.mp h₅) p hp)) s hs
      simpa using h
    have ht : sigMatchesEmptyText s = false := by
      have h := (List.all_eq_true.mp
        ((List.all_eq_true.mp catalog_text_signals_no_empty_match) p hp)) s hs
      simpa using h
    exact checkSignal_none_of_empty h₁ h₂ h₃ h₄ hu ht
  have hconf : ∀ p ∈ PATTERNS, patternConfidence p snap = 0 := by
    intro p hp
    have : p.signals.filter (fun s => (checkSignal s snap).isSome) = [] := by
      apply List.filter_eq_nil_iff.mpr
      intro s hs
      simp [hnone p hp s hs]
    simp [patternConfidence, this]
  have hfm : PATTERNS.filterMap (classifyEntry snap) = [] := by
    apply List.filterMap_eq_nil_iff.mpr
    intro p hp
    simp [classifyEntry, patternEvidence_eq, hconf p hp]
  rw [classifyPage_eq, hfm]
  rfl

/-- Witness for the amended C4 at the snapshot that is empty in every
classifier-relevant field. -/
theorem classifyPage_all_empty_witness :
    classifyPage ⟨"", "t", "", [], [], []⟩ = [] :=
  classifyPage_all_empty ⟨"", "t", "", [], [], []⟩ rfl rfl rfl rfl (by decide)

/-! ## Claim C10 -/

/-- Every match returned by `classifyPage` has positive confidence. -/
theorem classifyPage_pos {snap : PageSnapshot} {m : PatternMatch}
    (hm : m ∈ classifyPage snap) : 0 < m.confidence := by
  obtain ⟨q, _, he⟩ := mem_classifyPage.mp hm
  simp only [classifyEntry] at he
  split at he
  · cases he; assumption
  · cases he

/-- The aggregation invariant of one aggregated feature. -/
def featureInv (f : Feature) : Prop :=
  f.totalOccurrences = f.evidencePages.length
  ∧ f.maxConfidence = (f.evidencePages.map (fun ep => ep.confidence)).foldl max 0
  ∧ f.maxConfidence ∈ f.evidencePages.map (fun ep => ep.confidence)
  ∧ 0 < f.maxConfidence
  ∧ ∀ ep ∈ f.evidencePages, ep.topEvidence.length ≤ 3

theorem if_lt_eq_max (a b : Nat) : (if a < b then b else a) = max a b := by
  split
  · exact (Nat.max_eq_right (Nat.le_of_lt (by assumption))).symm
  · exact (Nat.max_eq_left (Nat.le_of_not_lt (by assumption))).symm

theorem featureInv_bump {url : String} {m : PatternMatch} {f : Feature}
    (hf : featureInv f) (hm : 0 < m.confidence) :
    featureInv (bumpFeature url m f) := by
  obtain ⟨h1, h2, h3, h4, h5⟩ := hf
  refine ⟨?_, ?_, ?_, ?_, ?_⟩
  · simp [bumpFeature, h1]
  · simp [bumpFeature, if_lt_eq_max, List.foldl_append, h2]
  · simp only [bumpFeature, if_lt_eq_max, List.map_append, List.mem_append]
    rcases Nat.lt_or_ge f.maxConfidence m.confidence with h | h
    · right; simp [Nat.max_eq_right (Nat.le_of_lt h)]
    · left; rw [Nat.max_eq_left h]; exact h3
  · simp only [bumpFeature, if_lt_eq_max]
    exact Nat.lt_of_lt_of_le h4 (Nat.le_max_left _ _)
  · intro ep hep
    simp only [bumpFeature, List.mem_append, List.mem_singleton] at hep
    rcases hep with h | rfl
    · exact h5 ep h
    · simpa using List.length_take_le 3 m.evidence

theorem featureInv_fresh (url : String) (m : PatternMatch) (hm : 0 < m.confidence) :
    featureInv (bumpFeature url m ⟨m.patternId, m.patternName, 0, 0, []⟩) := by
  refine ⟨by simp [bumpFeature], ?_, ?_, ?_, ?_⟩
  · simp [bumpFeature, hm, Nat.max_eq_right (Nat.le_of_lt hm)]
  · simp [bumpFeature, hm]
  · simp [bumpFeature, hm]
  · intro ep hep
    simp only [bumpFeature, List.nil_append, List.mem_singleton] at hep
    subst hep
    simpa using List.length_take_le 3 m.evidence

theorem updateFeatures_inv {url : String} {m : PatternMatch} {fs : List Feature}
    (hfs : ∀ f ∈ fs, featureInv f) (hm : 0 < m.confidence) :
    ∀ f ∈ updateFeatures url m fs, featureInv f := by
  induction fs with
  | nil =>
      intro f hf
      simp only [updateFeatures, List.mem_singleton] at hf
      subst hf
      exact featureInv_fresh url m hm
  | cons g gs ih =>
      intro f hf
      simp only [updateFeatures] at hf
      split at hf
      · rcases List.mem_cons.mp hf with rfl | h
        · exact featureInv_bump (hfs g (List.mem_cons_self g gs)) hm
        · exact hfs f (List.mem_cons_of_mem g h)
      · rcases List.mem_cons.mp hf with rfl | h
        · exact hfs f (List.mem_cons_self f gs)
        · exact ih (fun f' hf' => hfs f' (List.mem_cons_of_mem g hf')) f h

theorem foldMatches_inv {url : String} {ms : List PatternMatch} {fs : List Feature}
    (hfs : ∀ f ∈ fs, featureInv f) (hms : ∀ m ∈ ms, 0 < m.confidence) :
    ∀ f ∈ ms.foldl (fun fs m => updateFeatures url m fs) fs, featureInv f := by
  induction ms generalizing fs with
  | nil => exact hfs
  | cons m ms ih =>
      simp only [List.foldl_cons]
      exact ih (updateFeatures_inv hfs (hms m (List.mem_cons_self m ms)))
        (fun m' hm' => hms m' (List.mem_cons_of_mem m hm'))

theorem classifyAll_fold_inv (snaps : List PageSnapshot)
    (acc : List PageClassification × List Feature)
    (hacc : ∀ f ∈ acc.2, featureInv f) :
    ∀ f ∈ (snaps.foldl classifyAllStep acc).2, featureInv f := by
  induction snaps generalizing acc with
  | nil => exact hacc
  | cons s ss ih =>
      simp only [List.foldl_cons]
      exact ih _ (foldMatches_inv hacc (fun m hm => classifyPage_pos hm))

/-- Claim C10: every aggregated feature of `classifyAllPages` counts
one evidence page per occurrence, carries as `maxConfidence` the
maximum (attained, strictly positive) of the per-page confidences, and
keeps at most 3 signal matches per evidence page. -/
theorem classifyAllPages_invariants (snapshots : List PageSnapshot) :
    ∀ f ∈ (classifyAllPages snapshots).detectedFeatures,
      f.totalOccurrences = f.evidencePages.length
      ∧ f.maxConfidence = (f.evidencePages.map (fun ep => ep.confidence)).foldl max 0
      ∧ f.maxConfidence ∈ f.evidencePages.map (fun ep => ep.confidence)
      ∧ 0 < f.maxConfidence
      ∧ ∀ ep ∈ f.evidencePages, ep.topEvidence.length ≤ 3 := by
  intro f hf
  have hf' : f ∈ (snapshots.foldl classifyAllStep ([], [])).2 := by
    simpa [classifyAllPages, mem_sortByDesc] using hf
  exact classifyAll_fold_inv snapshots ([], []) (by simp) f hf'

def c10Feature : Feature :=
  ⟨"AUTH_PAGE", "Authentication Page", 55, 1,
    [⟨"https://x.com/login", 55,
      [⟨"input_type", "input[type=\"password\"]", 30⟩,
       ⟨"url", "url: \"https://x.com/login\"", 25⟩]⟩]⟩

/-- Witness for C10 on a concrete one-page crawl. -/
theorem classifyAllPages_invariants_witness :
    c10Feature.totalOccurrences = c10Feature.evidencePages.length
    ∧ c10Feature.maxConfidence
      = (c10Feature.evidencePages.map (fun ep => ep.confidence)).foldl max 0
    ∧ c10Feature.maxConfidence ∈ c10Feature.evidencePages.map (fun ep => ep.confidence)
    ∧ 0 < c10Feature.maxConfidence
    ∧ ∀ ep ∈ c10Feature.evidencePages, ep.topEvidence.length ≤ 3 :=
  classifyAllPages_invariants
    [⟨"https://x.com/login", "t", "", [⟨"password", "", ""⟩], [], []⟩]
    c10Feature (by decide)

/-! ## Claim C5 -/

theorem matchedKeywords_go (t : String) (kws : List Pat) (init : List String) :
    kws.foldl
      (fun acc pat => if pat.test t then acc ++ [pat.first t] else acc) init
    = init ++ (kws.filter (fun kw => kw.test t)).map (fun kw => kw.first t) := by
  induction kws generalizing init with
  | nil => simp
  | cons kw kws ih =>
      by_cases h : kw.test t
      · simp [List.foldl_cons, List.filter_cons, h, ih]
      · simp [List.foldl_cons, List.filter_cons, h, ih]

theorem matchedKeywords_eq (kws : List Pat) (t : String) :
    matchedKeywords kws t
    = (kws.filter (fun kw => kw.test t)).map (fun kw => kw.first t) := by
  simpa using matchedKeywords_go t kws []

/-- The claim `extractClaims` emits for one category (when it does). -/
def claimEntry (combined : String) (config : ClaimCategory) : Option Claim :=
  let mk := matchedKeywords config.keywords combined
  if 0 < mk.length then
    some ⟨config.id, config.label, min (mk.length * 25) 100, mk.take 3⟩
  else none

theorem claimStep_foldl (combined : String) (cats : List ClaimCategory)
    (init : List Claim) :
    cats.foldl (claimStep combined) init
    = init ++ cats.filterMap (claimEntry combined) := by
  induction cats generalizing init with
  | nil => simp
  | cons c cs ih =>
      simp only [List.foldl_cons, List.filterMap_cons, claimStep, claimEntry]
      split
      · simp [ih]
      · simp [ih]

theorem extractClaims_claims_eq (snap : PageSnapshot) :
    (extractClaims snap).claims
    = sortByDesc (fun c => c.confidence)
        (CLAIM_PATTERNS.filterMap (claimEntry (combinedCorpus snap))) := by
  show sortByDesc (fun c => c.confidence)
      (CLAIM_PATTERNS.foldl (claimStep (combinedCorpus snap)) []) = _
  rw [claimStep_foldl]
  rfl

theorem mem_extractClaims {snap : PageSnapshot} {c : Claim} :
    c ∈ (extractClaims snap).claims
    ↔ ∃ cat ∈ CLAIM_PATTERNS, claimEntry (combinedCorpus snap) cat = some c := by
  rw [extractClaims_claims_eq, mem_sortByDesc, List.mem_filterMap]

theorem CLAIM_PATTERNS_ids_nodup : (CLAIM_PATTERNS.map ClaimCategory.id).Nodup := by
  decide

theorem CLAIM_PATTERNS_id_inj {p q : ClaimCategory} (hp : p ∈ CLAIM_PATTERNS)
    (hq : q ∈ CLAIM_PATTERNS) (h : p.id = q.id) : p = q :=
  List.inj_on_of_nodup_map CLAIM_PATTERNS_ids_nodup hp hq h

/-- Claim C5: a claim category appears in `extractClaims` iff one of
its keyword patterns matches the combined corpus (visible text plus
joined button and link texts); the emitted confidence is
`min(25 * hits, 100)` with `hits` the number of matching keyword
patterns, and the evidence is the matched substrings capped to the
first three. -/
theorem extractClaims_spec (snap : PageSnapshot) (cat : ClaimCategory)
    (hcat : cat ∈ CLAIM_PATTERNS) :
    ((∃ c ∈ (extractClaims snap).claims, c.id = cat.id) ↔
      ∃ kw ∈ cat.keywords, kw.test (combinedCorpus snap) = true)
    ∧ ∀ c ∈ (extractClaims snap).claims, c.id = cat.id →
        c.confidence
          = min ((cat.keywords.filter
              (fun kw => kw.test (combinedCorpus snap))).length * 25) 100
        ∧ c.evidence = (matchedKeywords cat.keywords (combinedCorpus snap)).take 3 := by
  have hlen : ∀ q : ClaimCategory,
      (matchedKeywords q.keywords (combinedCorpus snap)).length
      = (q.keywords.filter (fun kw => kw.test (combinedCorpus snap))).length := by
    intro q
    rw [matchedKeywords_eq, List.length_map]
  have hentry : ∀ q c, claimEntry (combinedCorpus snap) q = some c →
      c.id = q.id
      ∧ c.confidence = min ((q.keywords.filter
          (fun kw => kw.test (combinedCorpus snap))).length * 25) 100
      ∧ c.evidence = (matchedKeywords q.keywords (combinedCorpus snap)).take 3
      ∧ 0 < (matchedKeywords q.keywords (combinedCorpus snap)).length := by
    intro q c h
    simp only [claimEntry] at h
    split at h
    · cases h
      exact ⟨rfl, by rw [hlen], rfl, by assumption⟩
    · cases h
  refine ⟨⟨?_, ?_⟩, ?_⟩
  · rintro ⟨c, hc, hid⟩
    obtain ⟨q, hq, he⟩ := mem_extractClaims.mp hc
    obtain ⟨h1, _, _, h4⟩ := hentry q c he
    have hqc : q = cat := CLAIM_PATTERNS_id_inj hq hcat (by rw [← h1, hid])
    subst hqc
    rw [hlen q] at h4
    obtain ⟨kw, hkw⟩ := List.exists_mem_of_length_pos h4
    exact ⟨kw, (List.mem_filter.mp hkw).1, (List.mem_filter.mp hkw).2⟩
  · rintro ⟨kw, hkw, ht⟩
    have h4 : 0 < (matchedKeywords cat.keywords (combinedCorpus snap)).length := by
      rw [hlen cat]
      exact List.length_pos.mpr
        (List.ne_nil_of_mem (List.mem_filter.mpr ⟨hkw, ht⟩))
    refine ⟨⟨cat.id, cat.label,
      min ((matchedKeywords cat.keywords (combinedCorpus snap)).length * 25) 100,
      (matchedKeywords cat.keywords (combinedCorpus snap)).take 3⟩, ?_, rfl⟩
    apply mem_extractClaims.mpr
    exact ⟨cat, hcat, by simp [claimEntry, h4]⟩
  · intro c hc hid
    obtain ⟨q, hq, he⟩ := mem_extractClaims.mp hc
    obtain ⟨h1, h2, h3, _⟩ := hentry q c he
    have hqc : q = cat := CLAIM_PATTERNS_id_inj hq hcat (by rw [← h1, hid])
    subst hqc
    exact ⟨h2, h3⟩

def c5Snap : PageSnapshot := ⟨"https://a.com", "", "search our products", [], [], []⟩

/-- Witness for C5 at a concrete homepage snapshot and the search
claim category. -/
theorem extractClaims_spec_witness :
    ((∃ c ∈ (extractClaims c5Snap).claims, c.id = searchFunctionalityCategory.id) ↔
      ∃ kw ∈ searchFunctionalityCategory.keywords,
        kw.test (combinedCorpus c5Snap) = true)
    ∧ ∀ c ∈ (extractClaims c5Snap).claims, c.id = searchFunctionalityCategory.id →
        c.confidence
          = min ((searchFunctionalityCategory.keywords.filter
              (fun kw => kw.test (combinedCorpus c5Snap))).length * 25) 100
        ∧ c.evidence
          = (matchedKeywords searchFunctionalityCategory.keywords
              (combinedCorpus c5Snap)).take 3 :=
  extractClaims_spec c5Snap searchFunctionalityCategory (by simp [CLAIM_PATTERNS])

/-! ## Claim C8 -/

theorem find?_of_first_index {α : Type} (l : List α) (p : α → Bool) (i : Nat)
    (hi : i < l.length) (hp : p (l.get ⟨i, hi⟩) = true)
    (hj : ∀ j (hj : j < i), p (l.get ⟨j, Nat.lt_trans hj hi⟩) = false) :
    l.find? p = some (l.get ⟨i, hi⟩) := by
  induction l generalizing i with
  | nil => cases hi
  | cons x xs ih =>
      cases i with
      | zero =>
          simp only [List.get] at hp
          simp [List.find?_cons_of_pos, hp]
      | succ n =>
          have hx : p x = false := hj 0 (Nat.succ_pos n)
          rw [List.find?_cons_of_neg _ (by simp [hx])]
          simp only [List.get] at hp ⊢
          exact ih n (Nat.lt_of_succ_lt_succ hi) hp
            (fun j hjn => hj (j + 1) (Nat.succ_lt_succ hjn))

def c8Line : String := "this line mentions no opener at all"

def c8Last : String := "We help teams ship faster every day"

/-- Eleven qualifying body-text lines: ten without a value-proposition
opener, and an eleventh that has one. -/
def c8Text : String :=
  c8Line ++ "\n" ++ c8Line ++ "\n" ++ c8Line ++ "\n" ++ c8Line ++ "\n" ++ c8Line
    ++ "\n" ++ c8Line ++ "\n" ++ c8Line ++ "\n" ++ c8Line ++ "\n" ++ c8Line
    ++ "\n" ++ c8Line ++ "\n" ++ c8Last

/-- Counterexample to C8 as stated: the eleventh qualifying line is the
first one matching a value-proposition opener, yet `extractDescription`
returns the first qualifying line — the opener scan only covers the
first ten qualifying lines. -/
theorem extractDescription_counterexample :
    extractDescription c8Text = c8Line
    ∧ (descLines c8Text).get? 10 = some c8Last
    ∧ openerTest c8Last = true
    ∧ ((descLines c8Text).take 10).all (fun l => !openerTest l) = true := by
  decide

/-- Claim C8, amended: qualifying lines are the trimmed body-text lines
of length strictly between 20 and 200 characters, and the opener scan
covers only the first ten of them: the description is the first of
those ten matching an opener; if none of the first ten matches, it is
the first qualifying line; with no qualifying line it is empty.  (The
original claim fails by `extractDescription_counterexample`.) -/
theorem extractDescription_amended (text : String) :
    (descLines text = [] → extractDescription text = "")
    ∧ (∀ i (hi : i < ((descLines text).take 10).length),
        openerTest (((descLines text).take 10).get ⟨i, hi⟩) = true →
        (∀ j (hj : j < i),
          openerTest (((descLines text).take 10).get ⟨j, Nat.lt_trans hj hi⟩) = false) →
        extractDescription text = ((descLines text).take 10).get ⟨i, hi⟩)
    ∧ (((descLines text).take 10).all (fun l => !openerTest l) = true →
        extractDescription text = (descLines text).headD "") := by
  refine ⟨?_, ?_, ?_⟩
  · intro h
    simp [extractDescription, h]
  · intro i hi hp hj
    have hfind := find?_of_first_index ((descLines text).take 10) openerTest i hi hp hj
    simp [extractDescription, hfind]
  · intro hall
    have hfind : ((descLines text).take 10).find? openerTest = none := by
      apply List.find?_eq_none.mpr
      intro x hx
      have := List.all_eq_true.mp hall x hx
      simpa using this
    simp [extractDescription, hfind]

/-- Witness for the amended C8: a single opener line is returned. -/
theorem extractDescription_amended_witness :
    extractDescription "We help teams ship faster every day"
      = "We help teams ship faster every day" := by
  have h := (extractDescription_amended "We help teams ship faster every day").2.1 0
    (by decide) (by decide) (fun j hj => absurd hj (Nat.not_lt_zero j))
  rw [h]
  decide

/-! ## Comparison lemmas -/

/-- The finding (if any) contributed to the findings list by one claim. -/
def claimFinding (features : List Feature) (claim : Claim) : Option Finding :=
  match bestMatchFor features (claimToPatterns claim.id) with
  | some bestMatch =>
      if 50 ≤ bestMatch.maxConfidence then none
      else if 25 ≤ bestMatch.maxConfidence then
        some ⟨"weak_detection", claim.label, bestMatch.maxConfidence,
          bestMatch.evidencePages.map (fun p => p.url),
          weakExplanation claim.label bestMatch.maxConfidence⟩
      else
        some ⟨"claimed_not_detected", claim.label, bestMatch.maxConfidence, [],
          veryWeakExplanation claim.label bestMatch.maxConfidence⟩
  | none =>
      some ⟨"claimed_not_detected", claim.label, 0, [],
        noEvidenceExplanation claim.label⟩

/-- The contents of the `matchedClaimIds` set after the claim loop. -/
def matchedClaimIdsOf (features : List Feature) (claims : List Claim) : List String :=
  claims.filterMap
    (fun c => (bestMatchFor features (claimToPatterns c.id)).map (fun _ => c.id))

/-- The contents of the `matchedPatternIds` set after the claim loop. -/
def matchedPatternIdsOf (features : List Feature) (claims : List Claim) : List String :=
  claims.filterMap
    (fun c => (bestMatchFor features (claimToPatterns c.id)).map (fun b => b.patternId))

def matchedFeaturesOf (features : List Feature) (claims : List Claim) :
    List MatchedFeature :=
  claims.filterMap (fun c =>
    match bestMatchFor features (claimToPatterns c.id) with
    | some b =>
        if 50 ≤ b.maxConfidence then some ⟨c.label, b.patternName, b.maxConfidence⟩
        else none
    | none => none)

def missingFeaturesOf (features : List Feature) (claims : List Claim) : List String :=
  claims.filterMap (fun c =>
    match bestMatchFor features (claimToPatterns c.id) with
    | some b =>
        if 50 ≤ b.maxConfidence then none
        else if 25 ≤ b.maxConfidence then none
        else some c.label
    | none => some c.label)

def weakFeaturesOf (features : List Feature) (claims : List Claim) : List String :=
  claims.filterMap (fun c =>
    match bestMatchFor features (claimToPatterns c.id) with
    | some b =>
        if 50 ≤ b.maxConfidence then none
        else if 25 ≤ b.maxConfidence then some c.label
        else none
    | none => none)

theorem processClaim_foldl (features : List Feature) (claims : List Claim)
    (acc : CompareAcc) :
    claims.foldl (processClaim features) acc
    = ⟨acc.findings ++ claims.filterMap (claimFinding features),
       acc.matchedClaimIds ++ matchedClaimIdsOf features claims,
       acc.matchedPatternIds ++ matchedPatternIdsOf features claims,
       acc.matchedFeatures ++ matchedFeaturesOf features claims,
       acc.missingFeatures ++ missingFeaturesOf features claims,
       acc.weakFeatures ++ weakFeaturesOf features claims⟩ := by
  induction claims generalizing acc with
  | nil =>
      simp [matchedClaimIdsOf, matchedPatternIdsOf, matchedFeaturesOf,
        missingFeaturesOf, weakFeaturesOf]
  | cons c cs ih =>
      rw [List.foldl_cons, ih]
      cases hbm : bestMatchFor features (claimToPatterns c.id) with
      | none =>
          simp [processClaim, hbm, claimFinding, matchedClaimIdsOf,
            matchedPatternIdsOf, matchedFeaturesOf, missingFeaturesOf,
            weakFeaturesOf, List.filterMap_cons]
      | some b =>
          by_cases h50 : 50 ≤ b.maxConfidence
          · simp [processClaim, hbm, h50, claimFinding, matchedClaimIdsOf,
              matchedPatternIdsOf, matchedFeaturesOf, missingFeaturesOf,
              weakFeaturesOf, List.filterMap_cons]
          · by_cases h25 : 25 ≤ b.maxConfidence
            · simp [processClaim, hbm, h50, h25, claimFinding, matchedClaimIdsOf,
                matchedPatternIdsOf, matchedFeaturesOf, missingFeaturesOf,
                weakFeaturesOf, List.filterMap_cons]
            · simp [processClaim, hbm, h50, h25, claimFinding, matchedClaimIdsOf,
                matchedPatternIdsOf, matchedFeaturesOf, missingFeaturesOf,
                weakFeaturesOf, List.filterMap_cons]

/-- The `detected_not_claimed` finding (if any) contributed by one
detected feature, given the two matched-id sets. -/
def unclaimedFinding (mci mpi : List String) (f : Feature) : Option Finding :=
  if mpi.contains f.patternId then none
  else if CLAIM_TO_PATTERN_MAP.any
      (fun e => e.2.contains f.patternId && mci.contains e.1) then none
  else if 25 ≤ f.maxConfidence then
    some ⟨"detected_not_claimed", f.patternName, f.maxConfidence,
      f.evidencePages.map (fun p => p.url),
      dncExplanation f.patternName f.maxConfidence⟩
  else none

/-- Pointwise reading of `processFeature` through `unclaimedFinding`. -/
theorem processFeature_eq (mci mpi : List String) (acc : List Finding × List String)
    (f : Feature) :
    processFeature mci mpi acc f
    = match unclaimedFinding mci mpi f with
      | some fd => (acc.1 ++ [fd], acc.2 ++ [f.patternName])
      | none => acc := by
  unfold processFeature unclaimedFinding
  by_cases h1 : f.patternId ∈ mpi
  · simp [h1]
  · by_cases h2 : CLAIM_TO_PATTERN_MAP.any
        (fun e => e.2.contains f.patternId && mci.contains e.1) = true
    · rw [h2]
      simp [h1]
    · have h2' : (CLAIM_TO_PATTERN_MAP.any
          (fun e => e.2.contains f.patternId && mci.contains e.1)) = false :=
        Bool.eq_false_iff.mpr h2
      rw [h2']
      by_cases h3 : 25 ≤ f.maxConfidence
      · simp [h1, h3]
      · simp [h1, h3]

theorem processFeature_foldl (mci mpi : List String) (features : List Feature)
    (acc : List Finding × List String) :
    features.foldl (processFeature mci mpi) acc
    = (acc.1 ++ features.filterMap (unclaimedFinding mci mpi),
       acc.2 ++ features.filterMap
         (fun f => (unclaimedFinding mci mpi f).map (fun _ => f.patternName))) := by
  induction features generalizing acc with
  | nil => simp
  | cons f fs ih =>
      rw [List.foldl_cons, ih, processFeature_eq]
      cases h : unclaimedFinding mci mpi f
      · simp [List.filterMap_cons, h]
      · simp [List.filterMap_cons, h]

theorem compare_findings_eq (claims : List Claim) (features : List Feature) :
    (compareClaimsVsDetections claims features).findings
    = sortByAsc (fun f => severityRank f.type)
        (claims.filterMap (claimFinding features)
          ++ features.filterMap
            (unclaimedFinding (matchedClaimIdsOf features claims)
              (matchedPatternIdsOf features claims))) := by
  simp [compareClaimsVsDetections, processClaim_foldl, processFeature_foldl]

theorem compare_findings_perm (claims : List Claim) (features : List Feature) :
    List.Perm (compareClaimsVsDetections claims features).findings
      (claims.filterMap (claimFinding features)
        ++ features.filterMap
          (unclaimedFinding (matchedClaimIdsOf features claims)
            (matchedPatternIdsOf features claims))) := by
  rw [compare_findings_eq]
  exact sortByAsc_perm _ _

theorem bestStep_of_lookup_none {features : List Feature} {b₀ : Option Feature}
    {pid : String} (h : detectedGet features pid = none) :
    bestStep features b₀ pid = b₀ := by
  simp [bestStep, h]

theorem bestStep_cases {features : List Feature} {b₀ : Option Feature}
    {pid : String} {f : Feature} (h : bestStep features b₀ pid = some f) :
    b₀ = some f ∨ detectedGet features pid = some f := by
  cases hd : detectedGet features pid with
  | none =>
      rw [bestStep_of_lookup_none hd] at h
      exact Or.inl h
  | some d =>
      cases b₀ with
      | none =>
          refine Or.inr ?_
          rw [← h]
          simp [bestStep, hd]
      | some b =>
          by_cases hlt : b.maxConfidence < d.maxConfidence
          · refine Or.inr ?_
            rw [← h]
            simp [bestStep, hd, hlt]
          · refine Or.inl ?_
            rw [← h]
            simp [bestStep, hd, hlt]

theorem bestStep_some_le {features : List Feature} {b₀ : Option Feature}
    {pid : String} {d : Feature} (h : b₀ = some d) :
    ∃ d', bestStep features b₀ pid = some d'
      ∧ d.maxConfidence ≤ d'.maxConfidence := by
  subst h
  unfold bestStep
  cases hd : detectedGet features pid with
  | none => exact ⟨d, rfl, Nat.le_refl _⟩
  | some e =>
      by_cases hlt : d.maxConfidence < e.maxConfidence
      · exact ⟨e, by simp [hlt], Nat.le_of_lt hlt⟩
      · exact ⟨d, by simp [hlt], Nat.le_refl _⟩

theorem bestStep_lookup_le {features : List Feature} {b₀ : Option Feature}
    {pid : String} {d : Feature} (h : detectedGet features pid = some d) :
    ∃ d', bestStep features b₀ pid = some d'
      ∧ d.maxConfidence ≤ d'.maxConfidence := by
  unfold bestStep
  rw [h]
  cases b₀ with
  | none => exact ⟨d, rfl, Nat.le_refl _⟩
  | some b =>
      by_cases hlt : b.maxConfidence < d.maxConfidence
      · exact ⟨d, by simp [hlt], Nat.le_refl _⟩
      · exact ⟨b, by simp [hlt], Nat.le_of_not_lt hlt⟩

theorem foldl_bestStep_some (features : List Feature) (rel : List String)
    (b : Feature) :
    ∃ b', rel.foldl (bestStep features) (some b) = some b' := by
  induction rel generalizing b with
  | nil => exact ⟨b, rfl⟩
  | cons pid rest ih =>
      rw [List.foldl_cons]
      obtain ⟨d', hd', _⟩ :=
        @bestStep_some_le features (some b) pid b rfl
      rw [hd']
      exact ih d'

theorem bestMatchFor_none_iff (features : List Feature) (rel : List String) :
    bestMatchFor features rel = none
    ↔ ∀ pid ∈ rel, detectedGet features pid = none := by
  unfold bestMatchFor
  induction rel with
  | nil => simp
  | cons pid rest ih =>
      rw [List.foldl_cons]
      cases hd : detectedGet features pid with
      | none =>
          rw [bestStep_of_lookup_none hd]
          constructor
          · intro h q hq
            rcases List.mem_cons.mp hq with rfl | hq'
            · exact hd
            · exact ih.mp h q hq'
          · intro h
            exact ih.mpr (fun q hq => h q (List.mem_cons_of_mem _ hq))
      | some d =>
          have hstep : bestStep features none pid = some d := by simp [bestStep, hd]
          rw [hstep]
          obtain ⟨b', hb'⟩ := foldl_bestStep_some features rest d
          rw [hb']
          constructor
          · intro h; cases h
          · intro h
            have hn := h pid (List.mem_cons_self _ _)
            simp [hn] at hd

theorem foldl_bestStep_spec (features : List Feature) (rel : List String) :
    ∀ (b₀ : Option Feature) (f : Feature),
      rel.foldl (bestStep features) b₀ = some f →
      (b₀ = some f ∨ ∃ pid ∈ rel, detectedGet features pid = some f)
      ∧ (∀ d, b₀ = some d → d.maxConfidence ≤ f.maxConfidence)
      ∧ (∀ pid ∈ rel, ∀ d, detectedGet features pid = some d →
          d.maxConfidence ≤ f.maxConfidence) := by
  induction rel with
  | nil =>
      intro b₀ f h
      simp only [List.foldl_nil] at h
      refine ⟨Or.inl h, ?_, ?_⟩
      · intro d hd
        rw [hd] at h
        cases h
        exact Nat.le_refl _
      · intro pid hpid
        exact absurd hpid (List.not_mem_nil pid)
  | cons pid rest ih =>
      intro b₀ f h
      rw [List.foldl_cons] at h
      obtain ⟨hprov, hb, hrest⟩ := ih (bestStep features b₀ pid) f h
      refine ⟨?_, ?_, ?_⟩
      · rcases hprov with hstep | ⟨q, hq, hqd⟩
        · rcases bestStep_cases hstep with h0 | hpd
          · exact Or.inl h0
          · exact Or.inr ⟨pid, List.mem_cons_self _ _, hpd⟩
        · exact Or.inr ⟨q, List.mem_cons_of_mem _ hq, hqd⟩
      · intro d hd
        obtain ⟨d', hd', hle⟩ :=
          @bestStep_some_le features b₀ pid d hd
        exact Nat.le_trans hle (hb d' hd')
      · intro q hq d hd
        rcases List.mem_cons.mp hq with rfl | hq'
        · obtain ⟨d', hd', hle⟩ := @bestStep_lookup_le features b₀ q d hd
          exact Nat.le_trans hle (hb d' hd')
        · exact hrest q hq' d hd

/-! ## Claim C2 -/

/-- Claim C2: for each claim, the comparison engine selects among the
claim's related detected patterns one with the highest `maxConfidence`;
`maxConfidence ≥ 50` contributes no finding, `25 ≤ maxConfidence < 50`
a `weak_detection` finding, `0 < maxConfidence < 25` a
`claimed_not_detected` finding carrying that confidence, and with no
related pattern detected at all a `claimed_not_detected` finding with
confidence 0; the findings list of the comparison result consists
exactly of these per-claim contributions plus the
`detected_not_claimed` ones. -/
theorem compare_thresholds (claims : List Claim) (features : List Feature)
    (c : Claim) (hc : c ∈ claims) :
    (bestMatchFor features (claimToPatterns c.id) = none ↔
      ∀ pid ∈ claimToPatterns c.id, detectedGet features pid = none)
    ∧ (∀ f, bestMatchFor features (claimToPatterns c.id) = some f →
        (∃ pid ∈ claimToPatterns c.id, detectedGet features pid = some f)
        ∧ (∀ pid ∈ claimToPatterns c.id, ∀ d, detectedGet features pid = some d →
            d.maxConfidence ≤ f.maxConfidence)
        ∧ (50 ≤ f.maxConfidence → claimFinding features c = none)
        ∧ (25 ≤ f.maxConfidence → f.maxConfidence < 50 →
            claimFinding features c = some ⟨"weak_detection", c.label,
              f.maxConfidence, f.evidencePages.map (fun p => p.url),
              weakExplanation c.label f.maxConfidence⟩)
        ∧ (0 < f.maxConfidence → f.maxConfidence < 25 →
            claimFinding features c = some ⟨"claimed_not_detected", c.label,
              f.maxConfidence, [], veryWeakExplanation c.label f.maxConfidence⟩))
    ∧ (bestMatchFor features (claimToPatterns c.id) = none →
        claimFinding features c = some ⟨"claimed_not_detected", c.label, 0, [],
          noEvidenceExplanation c.label⟩)
    ∧ (∀ fd, claimFinding features c = some fd →
        fd ∈ (compareClaimsVsDetections claims features).findings)
    ∧ List.Perm (compareClaimsVsDetections claims features).findings
        (claims.filterMap (claimFinding features)
          ++ features.filterMap
            (unclaimedFinding (matchedClaimIdsOf features claims)
              (matchedPatternIdsOf features claims))) := by
  refine ⟨bestMatchFor_none_iff features _, ?_, ?_, ?_, compare_findings_perm claims features⟩
  · intro f hf
    obtain ⟨hprov, _, hmax⟩ := foldl_bestStep_spec features (claimToPatterns c.id) none f hf
    refine ⟨?_, hmax, ?_, ?_, ?_⟩
    · rcases hprov with h0 | h
      · cases h0
      · exact h
    · intro h50
      simp [claimFinding, hf, h50]
    · intro h25 h50
      simp [claimFinding, hf, Nat.not_le_of_lt h50, h25]
    · intro _ h25
      have h50 : f.maxConfidence < 50 := Nat.lt_of_lt_of_le h25 (by decide)
      simp [claimFinding, hf, Nat.not_le_of_lt h25, Nat.not_le_of_lt h50]
  · intro hnone
    simp [claimFinding, hnone]
  · intro fd hfd
    rw [(compare_findings_perm claims features).mem_iff]
    exact List.mem_append_left _ (List.mem_filterMap.mpr ⟨c, hc, hfd⟩)

def c2Claim : Claim := ⟨"ECOMMERCE", "E-commerce / Shopping", 25, ["shop"]⟩

def c2Feature : Feature :=
  ⟨"ECOMMERCE", "E-commerce Page", 49, 1, [⟨"https://a.com/shop", 49, []⟩]⟩

/-- Witness for C2: a best match with confidence exactly 49 yields a
`weak_detection` finding in the comparison result. -/
theorem compare_thresholds_witness :
    claimFinding [c2Feature] c2Claim
      = some ⟨"weak_detection", c2Claim.label, c2Feature.maxConfidence,
          [("https://a.com/shop" : String)],
          weakExplanation c2Claim.label c2Feature.maxConfidence⟩
    ∧ (⟨"weak_detection", c2Claim.label, c2Feature.maxConfidence,
          [("https://a.com/shop" : String)],
          weakExplanation c2Claim.label c2Feature.maxConfidence⟩ : Finding)
        ∈ (compareClaimsVsDetections [c2Claim] [c2Feature]).findings := by
  have h := compare_thresholds [c2Claim] [c2Feature] c2Claim (by decide)
  have hbm : bestMatchFor [c2Feature] (claimToPatterns c2Claim.id) = some c2Feature := by
    decide
  have hwk := (h.2.1 c2Feature hbm).2.2.2.1 (by decide) (by decide)
  have hwk' : claimFinding [c2Feature] c2Claim
      = some ⟨"weak_detection", c2Claim.label, c2Feature.maxConfidence,
          [("https://a.com/shop" : String)],
          weakExplanation c2Claim.label c2Feature.maxConfidence⟩ := by
    rw [hwk]; decide
  exact ⟨hwk', h.2.2.2.1 _ hwk'⟩

/-! ## Claim C9 -/

theorem claimFinding_shape {features : List Feature} {c : Claim} {fd : Finding}
    (h : claimFinding features c = some fd) :
    fd.type = "weak_detection"
    ∨ (fd.type = "claimed_not_detected" ∧ fd.evidencePages = []) := by
  unfold claimFinding at h
  split at h
  · split at h
    · cases h
    · split at h
      · cases h; exact Or.inl rfl
      · cases h; exact Or.inr ⟨rfl, rfl⟩
  · cases h; exact Or.inr ⟨rfl, rfl⟩

theorem unclaimedFinding_shape {mci mpi : List String} {f : Feature} {fd : Finding}
    (h : unclaimedFinding mci mpi f = some fd) :
    fd.type = "detected_not_claimed" ∧ fd.feature = f.patternName
    ∧ fd.confidence = f.maxConfidence := by
  unfold unclaimedFinding at h
  split at h
  · cases h
  · split at h
    · cases h
    · split at h
      · cases h; exact ⟨rfl, rfl, rfl⟩
      · cases h

/-- Claim C9: every `claimed_not_detected` finding emitted by the
comparison engine has an empty `evidencePages` list, even when a
related pattern was (weakly) detected with evidence pages. -/
theorem claimedNotDetected_no_evidence (claims : List Claim) (features : List Feature) :
    ∀ fd ∈ (compareClaimsVsDetections claims features).findings,
      fd.type = "claimed_not_detected" → fd.evidencePages = [] := by
  intro fd hfd htype
  rw [(compare_findings_perm claims features).mem_iff] at hfd
  rcases List.mem_append.mp hfd with h | h
  · obtain ⟨c, _, he⟩ := List.mem_filterMap.mp h
    rcases claimFinding_shape he with hw | ⟨_, hev⟩
    · exact absurd (hw.symm.trans htype) (by decide)
    · exact hev
  · obtain ⟨f, _, he⟩ := List.mem_filterMap.mp h
    exact absurd ((unclaimedFinding_shape he).1.symm.trans htype) (by decide)

def c9Claim : Claim := ⟨"ECOMMERCE", "E-commerce / Shopping", 25, ["shop"]⟩

def c9Feature : Feature :=
  ⟨"ECOMMERCE", "E-commerce Page", 10, 1, [⟨"https://a.com/x", 10, []⟩]⟩

def c9Finding : Finding :=
  ⟨"claimed_not_detected", "E-commerce / Shopping", 10, [],
    veryWeakExplanation "E-commerce / Shopping" 10⟩

set_option maxRecDepth 40000 in
/-- Witness for C9: weak evidence existed (a related pattern detected
with confidence 10 and a non-empty evidence page list), and the
resulting `claimed_not_detected` finding still has no evidence pages. -/
theorem claimedNotDetected_no_evidence_witness :
    c9Finding ∈ (compareClaimsVsDetections [c9Claim] [c9Feature]).findings
    ∧ c9Feature.evidencePages ≠ []
    ∧ c9Finding.evidencePages = [] :=
  ⟨by decide, by decide,
    claimedNotDetected_no_evidence [c9Claim] [c9Feature] c9Finding (by decide)
      (by decide)⟩

/-! ## Claim C6 -/

/-- Modelled from the claim's words: the ids of patterns matched to a
"satisfied (strong-match) claim" — best match of some claim with
best-match confidence reaching the strong threshold. -/
def strongMatchedPatternIds (features : List Feature) (claims : List Claim) :
    List String :=
  claims.filterMap (fun c =>
    match bestMatchFor features (claimToPatterns c.id) with
    | some b => if 50 ≤ b.maxConfidence then some b.patternId else none
    | none => none)

/-- Claim C6 as stated, as a predicate on comparison inputs: every
detected feature with `maxConfidence ≥ 25` whose pattern was never
matched to a strong-match claim produces a `detected_not_claimed`
finding. -/
def specC6 (claims : List Claim) (features : List Feature) : Prop :=
  ∀ f ∈ features, 25 ≤ f.maxConfidence →
    f.patternId ∉ strongMatchedPatternIds features claims →
    ∃ fd ∈ (compareClaimsVsDetections claims features).findings,
      fd.type = "detected_not_claimed" ∧ fd.feature = f.patternName

def c6Claim : Claim := ⟨"ECOMMERCE", "E-commerce / Shopping", 25, ["shop"]⟩

def c6Features : List Feature :=
  [⟨"ECOMMERCE", "E-commerce Page", 30, 1, [⟨"https://a.com/shop", 30, []⟩]⟩,
   ⟨"PRICING_PAGE", "Pricing Page", 28, 1, [⟨"https://a.com/pricing", 28, []⟩]⟩]

set_option maxRecDepth 40000 in
/-- Counterexample to C6 as stated: with one e-commerce claim weakly
matched (confidence 30) and a related pricing feature at confidence 28,
no feature is matched to a strong claim and both have
`maxConfidence ≥ 25`, yet the comparison emits no
`detected_not_claimed` finding — the code suppresses features related
to any claim with a best match of any strength, not only strong ones. -/
theorem specC6_counterexample : ¬ specC6 [c6Claim] c6Features := by
  unfold specC6
  decide

/-- Claim C6, amended: the comparison's findings decompose into the
per-claim contributions (never of type `detected_not_claimed`) plus one
`detected_not_claimed` finding per detected feature that has
`maxConfidence ≥ 25`, is not the best-match pattern of any claim, and
is not related (via the claim-to-pattern map) to any claim that had a
best match of any strength — not merely the strong-match claims of the
original statement, which fails by `specC6_counterexample`. -/
theorem detectedNotClaimed_amended (claims : List Claim) (features : List Feature) :
    List.Perm (compareClaimsVsDetections claims features).findings
      (claims.filterMap (claimFinding features)
        ++ features.filterMap
          (unclaimedFinding (matchedClaimIdsOf features claims)
            (matchedPatternIdsOf features claims)))
    ∧ (∀ c ∈ claims, ∀ fd, claimFinding features c = some fd →
        fd.type ≠ "detected_not_claimed")
    ∧ ∀ f ∈ features,
        ((unclaimedFinding (matchedClaimIdsOf features claims)
            (matchedPatternIdsOf features claims) f).isSome = true
          ↔ (25 ≤ f.maxConfidence
              ∧ f.patternId ∉ matchedPatternIdsOf features claims
              ∧ ¬ ∃ e ∈ CLAIM_TO_PATTERN_MAP,
                  f.patternId ∈ e.2 ∧ e.1 ∈ matchedClaimIdsOf features claims))
        ∧ ∀ fd, unclaimedFinding (matchedClaimIdsOf features claims)
            (matchedPatternIdsOf features claims) f = some fd →
          fd.type = "detected_not_claimed" ∧ fd.feature = f.patternName
          ∧ fd.confidence = f.maxConfidence := by
  refine ⟨compare_findings_perm claims features, ?_, ?_⟩
  · intro c _ fd h
    rcases claimFinding_shape h with hw | ⟨hc, _⟩
    · rw [hw]; decide
    · rw [hc]; decide
  · intro f _
    refine ⟨?_, fun fd h => unclaimedFinding_shape h⟩
    by_cases h1 : f.patternId ∈ matchedPatternIdsOf features claims
    · simp [unclaimedFinding, h1]
    · by_cases h2 : ∃ e ∈ CLAIM_TO_PATTERN_MAP,
          f.patternId ∈ e.2 ∧ e.1 ∈ matchedClaimIdsOf features claims
      · have h2' : CLAIM_TO_PATTERN_MAP.any
            (fun e => e.2.contains f.patternId
              && (matchedClaimIdsOf features claims).contains e.1) = true := by
          obtain ⟨e, he, hm1, hm2⟩ := h2
          apply List.any_eq_true.mpr
          refine ⟨e, he, ?_⟩
          simp [hm1, hm2]
        rw [show unclaimedFinding (matchedClaimIdsOf features claims)
            (matchedPatternIdsOf features claims) f = none by
          unfold unclaimedFinding
          rw [h2']
          simp [h1]]
        simp [h1, h2]
      · have h2' : CLAIM_TO_PATTERN_MAP.any
            (fun e => e.2.contains f.patternId
              && (matchedClaimIdsOf features claims).contains e.1) = false := by
          apply Bool.eq_false_iff.mpr
          intro hany
          obtain ⟨e, he, hb⟩ := List.any_eq_true.mp hany
          rw [Bool.and_eq_true] at hb
          exact h2 ⟨e, he, by simpa using hb.1, by simpa using hb.2⟩
        by_cases h3 : 25 ≤ f.maxConfidence
        · rw [show unclaimedFinding (matchedClaimIdsOf features claims)
              (matchedPatternIdsOf features claims) f
              = some ⟨"detected_not_claimed", f.patternName, f.maxConfidence,
                  f.evidencePages.map (fun p => p.url),
                  dncExplanation f.patternName f.maxConfidence⟩ by
            unfold unclaimedFinding
            rw [h2']
            simp [h1, h3]]
          simp [h1, h2, h3]
        · rw [show unclaimedFinding (matchedClaimIdsOf features claims)
              (matchedPatternIdsOf features claims) f = none by
            unfold unclaimedFinding
            rw [h2']
            simp [h1, h3]]
          simp [h3]

set_option maxRecDepth 40000 in
/-- Witness for the amended C6 at the counterexample inputs: the
pricing feature (confidence 28, related to the weakly matched
e-commerce claim) yields no `detected_not_claimed` finding. -/
theorem detectedNotClaimed_amended_witness :
    ((unclaimedFinding (matchedClaimIdsOf c6Features [c6Claim])
        (matchedPatternIdsOf c6Features [c6Claim])
        ⟨"PRICING_PAGE", "Pricing Page", 28, 1,
          [⟨"https://a.com/pricing", 28, []⟩]⟩).isSome = true
      ↔ (25 ≤ (28 : Nat)
          ∧ ("PRICING_PAGE" : String) ∉ matchedPatternIdsOf c6Features [c6Claim]
          ∧ ¬ ∃ e ∈ CLAIM_TO_PATTERN_MAP,
              ("PRICING_PAGE" : String) ∈ e.2
                ∧ e.1 ∈ matchedClaimIdsOf c6Features [c6Claim])) :=
  (((detectedNotClaimed_amended [c6Claim] c6Features).2.2
    ⟨"PRICING_PAGE", "Pricing Page", 28, 1, [⟨"https://a.com/pricing", 28, []⟩]⟩
    (by decide)).1)

/-! ## Claim C3 -/

/-- The loop guard of `crawlWebsite` fails: queue exhausted or page
ceiling reached. -/
def crawlHalted (st : CrawlState) : Prop :=
  st.queue = [] ∨ st.snapshots.length = MAX_PAGES

/-- Termination measure of the crawl loop. -/
def crawlMeasure (st : CrawlState) : Nat :=
  (MAX_PAGES - st.snapshots.length) * (2 * MAX_PAGES + 1) + st.queue.length

theorem le_max_elim {q a b : Nat} (h : q ≤ max a b) : q ≤ a ∨ q ≤ b := by
  rcases Nat.le_total a b with hab | hab
  · exact Or.inr (h.trans (Nat.max_le.mpr ⟨hab, Nat.le_refl _⟩))
  · exact Or.inl (h.trans (Nat.max_le.mpr ⟨Nat.le_refl _, hab⟩))

theorem enqueueLinks_length (snapCount depth : Nat) (links : List String) :
    ∀ queue : List (String × Nat),
      (enqueueLinks snapCount depth queue links).length
      ≤ max queue.length (MAX_PAGES * 2 - snapCount) := by
  induction links with
  | nil =>
      intro queue
      exact Nat.le_max_left _ _
  | cons l ls ih =>
      intro queue
      simp only [enqueueLinks, List.foldl_cons] at ih ⊢
      by_cases h : queue.length + snapCount < MAX_PAGES * 2
      · rw [if_pos h]
        have hlen : (queue ++ [(l, depth + 1)]).length ≤ MAX_PAGES * 2 - snapCount := by
          rw [List.length_append, List.length_singleton]
          omega
        have h2 := ih (queue ++ [(l, depth + 1)])
        rw [Nat.max_eq_right hlen] at h2
        exact h2.trans (Nat.le_max_right _ _)
      · rw [if_neg h]
        exact ih queue

theorem enqueueLinks_mem (snapCount depth : Nat) (links : List String) :
    ∀ queue : List (String × Nat),
      ∀ pr ∈ enqueueLinks snapCount depth queue links, pr ∈ queue ∨ pr.2 = depth + 1 := by
  induction links with
  | nil =>
      intro queue pr hpr
      exact Or.inl hpr
  | cons l ls ih =>
      intro queue pr hpr
      simp only [enqueueLinks, List.foldl_cons] at hpr
      by_cases h : queue.length + snapCount < MAX_PAGES * 2
      · rw [if_pos h] at hpr
        rcases ih (queue ++ [(l, depth + 1)]) pr hpr with hq | hd
        · rcases List.mem_append.mp hq with hq' | hq'
          · exact Or.inl hq'
          · right
            rw [List.mem_singleton.mp hq']
        · exact Or.inr hd
      · rw [if_neg h] at hpr
        exact ih queue pr hpr

theorem crawlLoop_invariant (fetch : String → Except String RenderedPage)
    (base : String) :
    ∀ fuel (st : CrawlState), st.snapshots.length ≤ MAX_PAGES →
      crawlMeasure st < fuel →
      crawlHalted (crawlLoop fetch base fuel st)
      ∧ (crawlLoop fetch base fuel st).snapshots.length ≤ MAX_PAGES := by
  intro fuel
  induction fuel with
  | zero =>
      intro st _ hm
      exact absurd hm (Nat.not_lt_zero _)
  | succ fuel ih =>
      intro st hs hm
      obtain ⟨v, q, s, e⟩ := st
      cases q with
      | nil => exact ⟨Or.inl rfl, hs⟩
      | cons head rest =>
          obtain ⟨url, depth⟩ := head
          simp only [List.length_cons] at hs ⊢
          simp only [crawlMeasure, MAX_PAGES, List.length_cons] at hm
          simp only [crawlLoop]
          by_cases h15 : MAX_PAGES ≤ s.length
          · rw [if_pos h15]
            exact ⟨Or.inr (Nat.le_antisymm hs h15), hs⟩
          · rw [if_neg h15]
            have hs1 : s.length < MAX_PAGES := Nat.lt_of_not_le h15
            simp only [MAX_PAGES] at hs1
            by_cases hv : v.contains (normalizeUrl url) = true
            · rw [if_pos hv]
              apply ih
              · exact hs
              · simp only [crawlMeasure, MAX_PAGES]
                omega
            · rw [if_neg hv]
              by_cases hsk : shouldSkipUrl url = true
              · rw [if_pos hsk]
                apply ih
                · exact hs
                · simp only [crawlMeasure, MAX_PAGES]
                  omega
              · rw [if_neg hsk]
                cases hf : fetch url with
                | error msg =>
                    apply ih
                    · exact hs
                    · simp only [crawlMeasure, MAX_PAGES]
                      omega
                | ok pd =>
                    apply ih
                    · simp only [List.length_append, List.length_singleton]
                      omega
                    · simp only [crawlMeasure]
                      by_cases hd : depth < MAX_DEPTH
                      · rw [if_pos hd]
                        have hlen : (s ++ [createPageSnapshot (rawOfRendered pd)]).length
                            = s.length + 1 := by simp
                        have hq := enqueueLinks_length
                          (s ++ [createPageSnapshot (rawOfRendered pd)]).length depth
                          ((((pd.links.map (fun l => l.href)).filter
                            (fun href => isInternalUrl href base)).filter
                            (fun href => !shouldSkipUrl href)).filter
                            (fun href => !(v ++ [normalizeUrl url]).contains
                              (normalizeUrl href)))
                          rest
                        rw [hlen] at hq ⊢
                        rcases le_max_elim hq with hq' | hq'
                        · simp only [MAX_PAGES] at hq' ⊢
                          omega
                        · simp only [MAX_PAGES] at hq' ⊢
                          omega
                      · rw [if_neg hd]
                        rw [show (s ++ [createPageSnapshot (rawOfRendered pd)]).length
                            = s.length + 1 from by simp]
                        simp only [MAX_PAGES]
                        omega

theorem crawlLoop_depths (fetch : String → Except String RenderedPage)
    (base : String) :
    ∀ fuel (st : CrawlState), (∀ pr ∈ st.queue, pr.2 ≤ MAX_DEPTH) →
      ∀ pr ∈ (crawlLoop fetch base fuel st).queue, pr.2 ≤ MAX_DEPTH := by
  intro fuel
  induction fuel with
  | zero =>
      intro st h
      exact h
  | succ fuel ih =>
      intro st h
      obtain ⟨v, q, s, e⟩ := st
      cases q with
      | nil => exact h
      | cons head rest =>
          obtain ⟨url, depth⟩ := head
          have hrest : ∀ pr ∈ rest, pr.2 ≤ MAX_DEPTH :=
            fun pr hpr => h pr (List.mem_cons_of_mem _ hpr)
          simp only [crawlLoop]
          by_cases h15 : MAX_PAGES ≤ s.length
          · rw [if_pos h15]
            exact h
          · rw [if_neg h15]
            by_cases hv : v.contains (normalizeUrl url) = true
            · rw [if_pos hv]
              exact ih _ hrest
            · rw [if_neg hv]
              by_cases hsk : shouldSkipUrl url = true
              · rw [if_pos hsk]
                exact ih _ hrest
              · rw [if_neg hsk]
                cases hf : fetch url with
                | error msg => exact ih _ hrest
                | ok pd =>
                    apply ih
                    by_cases hd : depth < MAX_DEPTH
                    · rw [if_pos hd]
                      intro pr hpr
                      rcases enqueueLinks_mem _ _ _ _ pr hpr with hq | hq
                      · exact hrest pr hq
                      · rw [hq]
                        exact hd
                    · rw [if_neg hd]
                      exact hrest

theorem crawlLoop_halted_fix (fetch : String → Except String RenderedPage)
    (base : String) (fuel : Nat) (st : CrawlState) (h : crawlHalted st) :
    crawlLoop fetch base fuel st = st := by
  cases fuel with
  | zero => rfl
  | succ fuel =>
      obtain ⟨v, q, s, e⟩ := st
      cases q with
      | nil => rfl
      | cons head rest =>
          obtain ⟨url, depth⟩ := head
          rcases h with hq | hs
          · cases hq
          · simp only [crawlLoop]
            rw [if_pos (Nat.le_of_eq hs.symm)]

/-- Claim C3, amended: the traversal collects at most `MAX_PAGES` (15)
snapshots, never enqueues a link at depth above `MAX_DEPTH` (2), and
halts exactly when the snapshot count reaches the ceiling or the work
queue empties (a halted state is a fixed point of the loop).  The
original claim's bound on the *visited* set fails: failed fetches
consume visited slots without producing snapshots, so the visited set
can exceed `MAX_PAGES` (see `crawl_visited_exceeds_maxPages`). -/
theorem crawlWebsite_bounds (fetch : String → Except String RenderedPage)
    (startUrl : String) (r : CrawlResult)
    (h : crawlWebsite fetch startUrl = .ok r) :
    r.snapshots.length ≤ MAX_PAGES
    ∧ r.totalPages = r.snapshots.length
    ∧ (r.queueAtHalt = [] ∨ r.snapshots.length = MAX_PAGES)
    ∧ (∀ pr ∈ r.queueAtHalt, pr.2 ≤ MAX_DEPTH)
    ∧ (∀ fuel st, crawlHalted st → crawlLoop fetch r.baseDomain fuel st = st) := by
  unfold crawlWebsite at h
  cases hb : getBaseDomain startUrl with
  | none =>
      rw [hb] at h
      cases h
  | some base =>
      rw [hb] at h
      simp only [Except.ok.injEq] at h
      subst h
      have hinv := crawlLoop_invariant fetch base crawlFuel
        ⟨[], [(startUrl, 0)], [], []⟩ (by simp [MAX_PAGES])
        (by simp [crawlMeasure, MAX_PAGES, crawlFuel])
      have hdep := crawlLoop_depths fetch base crawlFuel
        ⟨[], [(startUrl, 0)], [], []⟩
        (by
          intro pr hpr
          simp only [List.mem_singleton] at hpr
          rw [hpr]
          simp [MAX_DEPTH])
      refine ⟨hinv.2, rfl, ?_, hdep, fun fuel st hst => crawlLoop_halted_fix fetch base fuel st hst⟩
      rcases hinv.1 with hq | hs
      · exact Or.inl hq
      · exact Or.inr hs

deriving instance DecidableEq for Except

def c3Links : List LinkEl :=
  [⟨"https://a.com/p1", "p"⟩, ⟨"https://a.com/p2", "p"⟩, ⟨"https://a.com/p3", "p"⟩,
   ⟨"https://a.com/p4", "p"⟩, ⟨"https://a.com/p5", "p"⟩, ⟨"https://a.com/p6", "p"⟩,
   ⟨"https://a.com/p7", "p"⟩, ⟨"https://a.com/p8", "p"⟩, ⟨"https://a.com/p9", "p"⟩,
   ⟨"https://a.com/q1", "p"⟩, ⟨"https://a.com/q2", "p"⟩, ⟨"https://a.com/q3", "p"⟩,
   ⟨"https://a.com/q4", "p"⟩, ⟨"https://a.com/q5", "p"⟩, ⟨"https://a.com/q6", "p"⟩]

/-- A link graph on which the homepage succeeds with 15 internal links
and every other fetch fails. -/
def c3Fetch (url : String) : Except String RenderedPage :=
  if url == "https://a.com" then
    .ok ⟨"https://a.com", "Home", "", [], [], c3Links⟩
  else .error "net::ERR_FAILED"

/-- The 16 distinct normalized URLs the counterexample crawl visits. -/
def c3Visited : List String :=
  ["https://a.com", "https://a.com/p1", "https://a.com/p2", "https://a.com/p3",
   "https://a.com/p4", "https://a.com/p5", "https://a.com/p6", "https://a.com/p7",
   "https://a.com/p8", "https://a.com/p9", "https://a.com/q1", "https://a.com/q2",
   "https://a.com/q3", "https://a.com/q4", "https://a.com/q5", "https://a.com/q6"]

set_option maxRecDepth 80000 in
/-- Counterexample to C3 as stated: on this graph the crawl adds 16
distinct normalized URLs to the visited set (each with a fetch
attempt) while producing a single snapshot — more than
`MAX_PAGES = 15` visits. -/
theorem crawl_visited_exceeds_maxPages :
    (crawlWebsite c3Fetch "https://a.com").map
      (fun r => (r.visited, r.snapshots.length)) = .ok (c3Visited, 1)
    ∧ c3Visited.Nodup ∧ c3Visited.length = MAX_PAGES + 1 := by
  decide

def c3wFetch (url : String) : Except String RenderedPage := .error "timeout"

def c3wResult : CrawlResult :=
  ⟨"https://w.com", "https://w.com", 0, [], [("https://w.com", "timeout")],
    ["1 pages skipped due to errors"], ["https://w.com"], []⟩

set_option maxRecDepth 80000 in
/-- Witness for the amended C3 on a concrete crawl whose only fetch
fails. -/
theorem crawlWebsite_bounds_witness :
    crawlWebsite c3wFetch "https://w.com" = .ok c3wResult
    ∧ (c3wResult.snapshots.length ≤ MAX_PAGES
      ∧ c3wResult.totalPages = c3wResult.snapshots.length
      ∧ (c3wResult.queueAtHalt = [] ∨ c3wResult.snapshots.length = MAX_PAGES)
      ∧ (∀ pr ∈ c3wResult.queueAtHalt, pr.2 ≤ MAX_DEPTH)
      ∧ (∀ fuel st, crawlHalted st →
          crawlLoop c3wFetch c3wResult.baseDomain fuel st = st)) :=
  ⟨by decide, crawlWebsite_bounds c3wFetch "https://w.com" c3wResult (by decide)⟩

/-! ## Claim C7 -/

theorem classifyAll_fold_pcs_length (snaps : List PageSnapshot) :
    ∀ acc : List PageClassification × List Feature,
      (snaps.foldl classifyAllStep acc).1.length = acc.1.length + snaps.length := by
  induction snaps with
  | nil => intro acc; simp
  | cons s ss ih =>
      intro acc
      rw [List.foldl_cons, ih]
      simp [classifyAllStep]
      omega

theorem classifyAll_fold_pcs_inv (snaps : List PageSnapshot) :
    ∀ acc : List PageClassification × List Feature,
      (∀ pc ∈ acc.1, ∀ m ∈ pc.classifications, 0 < m.confidence) →
      ∀ pc ∈ (snaps.foldl classifyAllStep acc).1,
        ∀ m ∈ pc.classifications, 0 < m.confidence := by
  induction snaps with
  | nil => intro acc h; exact h
  | cons s ss ih =>
      intro acc h
      rw [List.foldl_cons]
      apply ih
      intro pc hpc
      rcases List.mem_append.mp hpc with hpc' | hpc'
      · exact h pc hpc'
      · rw [List.mem_singleton.mp hpc']
        intro m hm
        exact classifyPage_pos hm

/-- Claim C7: the classification, extraction and comparison functions
are total over well-formed inputs — formalised by the embedding itself
(plain total functions) together with the well-formedness of their
outputs on arbitrary inputs: one page classification per snapshot, only
positive confidences, claim evidence capped at three, finding types
drawn from the three-value enumeration, and graceful handling of claim
ids absent from the claim-to-pattern map (they yield the
no-evidence `claimed_not_detected` finding rather than an error). -/
theorem pipeline_total (snaps : List PageSnapshot) (home : PageSnapshot)
    (claims : List Claim) (features : List Feature) :
    (classifyAllPages snaps).pageClassifications.length = snaps.length
    ∧ (∀ pc ∈ (classifyAllPages snaps).pageClassifications,
        ∀ m ∈ pc.classifications, 0 < m.confidence)
    ∧ (∀ c ∈ (extractClaims home).claims, 0 < c.confidence ∧ c.evidence.length ≤ 3)
    ∧ (∀ fd ∈ (compareClaimsVsDetections claims features).findings,
        fd.type = "claimed_not_detected" ∨ fd.type = "weak_detection"
          ∨ fd.type = "detected_not_claimed")
    ∧ (∀ c ∈ claims, claimToPatterns c.id = [] →
        (⟨"claimed_not_detected", c.label, 0, [],
          noEvidenceExplanation c.label⟩ : Finding)
          ∈ (compareClaimsVsDetections claims features).findings) := by
  refine ⟨?_, ?_, ?_, ?_, ?_⟩
  · show (snaps.foldl classifyAllStep ([], [])).1.length = snaps.length
    rw [classifyAll_fold_pcs_length]
    simp
  · intro pc hpc
    exact classifyAll_fold_pcs_inv snaps ([], []) (by simp) pc hpc
  · intro c hc
    obtain ⟨cat, _, he⟩ := mem_extractClaims.mp hc
    simp only [claimEntry] at he
    split at he
    · cases he
      rename_i hpos
      constructor
      · exact Nat.lt_min.mpr ⟨Nat.mul_pos hpos (by decide), by decide⟩
      · simpa using List.length_take_le 3 _
    · cases he
  · intro fd hfd
    rw [(compare_findings_perm claims features).mem_iff] at hfd
    rcases List.mem_append.mp hfd with h | h
    · obtain ⟨c, _, he⟩ := List.mem_filterMap.mp h
      rcases claimFinding_shape he with hw | ⟨hc, _⟩
      · exact Or.inr (Or.inl hw)
      · exact Or.inl hc
    · obtain ⟨f, _, he⟩ := List.mem_filterMap.mp h
      exact Or.inr (Or.inr (unclaimedFinding_shape he).1)
  · intro c hc hmap
    have hbm : bestMatchFor features (claimToPatterns c.id) = none := by
      rw [hmap]
      rfl
    have hcf : claimFinding features c
        = some ⟨"claimed_not_detected", c.label, 0, [],
            noEvidenceExplanation c.label⟩ := by
      simp [claimFinding, hbm]
    rw [(compare_findings_perm claims features).mem_iff]
    exact List.mem_append_left _ (List.mem_filterMap.mpr ⟨c, hc, hcf⟩)

def c7Claim : Claim := ⟨"UNMAPPED_ID", "Unmapped claim", 25, []⟩

set_option maxRecDepth 40000 in
/-- Witness for C7 at concrete inputs including a claim id absent from
the claim-to-pattern map. -/
theorem pipeline_total_witness :
    (classifyAllPages [c1Snap]).pageClassifications.length = [c1Snap].length
    ∧ (∀ pc ∈ (classifyAllPages [c1Snap]).pageClassifications,
        ∀ m ∈ pc.classifications, 0 < m.confidence)
    ∧ (∀ c ∈ (extractClaims c5Snap).claims, 0 < c.confidence ∧ c.evidence.length ≤ 3)
    ∧ (∀ fd ∈ (compareClaimsVsDetections [c7Claim] []).findings,
        fd.type = "claimed_not_detected" ∨ fd.type = "weak_detection"
          ∨ fd.type = "detected_not_claimed")
    ∧ (∀ c ∈ [c7Claim], claimToPatterns c.id = [] →
        (⟨"claimed_not_detected", c.label, 0, [],
          noEvidenceExplanation c.label⟩ : Finding)
          ∈ (compareClaimsVsDetections [c7Claim] []).findings) :=
  pipeline_total [c1Snap] c5Snap [c7Claim] []
